import Mathlib

/-!
Verification of the symbol-cosigner repository core against its design
specification.  JavaScript strings are modelled as lists of characters
(`JSString`); JavaScript `undefined` / nullable values are modelled as
`Option`; thrown exceptions are modelled with `Except` or explicit outcome
types at the I/O boundaries.  Every definition below is a direct
translation of the corresponding TypeScript function named in its doc
comment.
-/

namespace SymbolCosigner

/-- Model of a JavaScript string as a list of characters. -/
abbrev JSString := List Char

/-- Coerces a Lean string literal into the JavaScript-string model. -/
def jstr (s : String) : JSString := s.data

/-- Model of JavaScript `toUpperCase` on one character (ASCII case
mapping, which is what every input of this code base uses): lower-case
letters (code points 97-122) are shifted down by 32. -/
def jsToUpperChar (c : Char) : Char :=
  if 97 ≤ c.toNat ∧ c.toNat ≤ 122 then Char.ofNat (c.toNat - 32) else c

/-- Model of JavaScript `toLowerCase` on one character (ASCII case
mapping): upper-case letters (code points 65-90) are shifted up by 32. -/
def jsToLowerChar (c : Char) : Char :=
  if 65 ≤ c.toNat ∧ c.toNat ≤ 90 then Char.ofNat (c.toNat + 32) else c

/-- Character class of the regex `[A-Z2-7]` from address-validation.ts
(`BASE32_CHARS`): code points 65-90 are the letters A-Z, 50-55 the
digits 2-7. -/
def isBase32Char (c : Char) : Bool :=
  (65 ≤ c.toNat && c.toNat ≤ 90) || (50 ≤ c.toNat && c.toNat ≤ 55)

/-- Test of the anchored regex `/^[A-Z2-7]+$/` (`BASE32_CHARS.test`):
at least one character, all drawn from the class. -/
def base32Test (s : JSString) : Bool :=
  !s.isEmpty && s.all isBase32Char

/-- Embedding of `normalizeAddress` (address-validation.ts): removes every
hyphen (the global hyphen replace) and upper-cases (`toUpperCase`, ASCII). -/
def normalizeAddress (address : JSString) : JSString :=
  (address.filter (fun c => c ≠ '-')).map jsToUpperChar

/-- Result shape of `validateSymbolAddress`. -/
structure AddressValidationResult where
  isValid : Bool
  error : Option JSString := none
  normalizedAddress : Option JSString := none
  deriving Repr, DecidableEq

/-- Embedding of `validateSymbolAddress` (address-validation.ts): empty
input rejected, then the hyphen-stripped upper-cased form must be exactly
39 characters of the Base32 class. -/
def validateSymbolAddress (address : JSString) : AddressValidationResult :=
  if address.isEmpty then
    { isValid := false, error := some (jstr "アドレスを入力してください") }
  else
    let normalized := normalizeAddress address
    if normalized.length ≠ 39 then
      { isValid := false
        error := some (jstr "アドレスは39文字である必要があります（現在: "
          ++ (Nat.repr normalized.length).data ++ jstr "文字）") }
    else if !base32Test normalized then
      { isValid := false
        error := some (jstr "アドレスに無効な文字が含まれています（A-Z, 2-7のみ有効）") }
    else
      { isValid := true, normalizedAddress := some normalized }

/-- Hyphen offsets checked by `validateFormattedAddress`
(address-validation.ts, `expectedHyphens`). -/
def expectedHyphens : List Nat := [6, 13, 20, 27, 34, 41]

/-- Embedding of `validateFormattedAddress` (address-validation.ts): the
45-character hyphenated form, hyphens required at the fixed offsets, and
the hyphen-stripped remainder must be 39 Base32 characters. -/
def validateFormattedAddress (address : JSString) : Bool :=
  if address.length ≠ 45 then false
  else if expectedHyphens.all (fun pos => address.get? pos == some '-') then
    let withoutHyphens := address.filter (fun c => c ≠ '-')
    withoutHyphens.length == 39 && base32Test withoutHyphens
  else false

/-- Model of JavaScript `toLowerCase` applied character-wise. -/
def jsToLowerCase (s : JSString) : JSString := s.map jsToLowerChar

/-- Model of `replace(/\/$/, "")`: removes one trailing slash when
present (the regex is anchored and not global, so at most one). -/
def dropTrailingSlashOnce (s : JSString) : JSString :=
  if s.getLast? = some '/' then s.dropLast else s

/-- Embedding of `normalizeNodeUrl` (node-validation.ts):
`url.toLowerCase().replace(/\/$/, "")`. -/
def normalizeNodeUrl (url : JSString) : JSString :=
  dropTrailingSlashOnce (jsToLowerCase url)

/-- Helper for `addHyphens`: the counter is how many characters of the
current 6-character group are still to be copied before the next hyphen. -/
def addHyphensAux : Nat → List Char → List Char
  | _, [] => []
  | 0, c :: cs => '-' :: c :: addHyphensAux 5 cs
  | k + 1, c :: cs => c :: addHyphensAux k cs

/-- Inserts a hyphen after every six characters: the canonical 6-character
grouping of a Symbol address (39 characters become 45). -/
def addHyphens (s : JSString) : JSString := addHyphensAux 6 s

/-! Helper lemmas about characters and the hyphenation scheme. -/

theorem toNat_ofNat_of_lt {n : Nat} (h : n < 55296) : (Char.ofNat n).toNat = n := by
  have hv : n.isValidChar := Or.inl h
  rw [Char.ofNat, dif_pos hv]
  rfl

theorem jsToUpperChar_of_base32 {c : Char} (h : isBase32Char c = true) :
    jsToUpperChar c = c := by
  simp only [isBase32Char, Bool.or_eq_true, Bool.and_eq_true, decide_eq_true_eq] at h
  rw [jsToUpperChar, if_neg]
  rcases h with ⟨_, h2⟩ | ⟨_, h2⟩ <;> omega

theorem base32_ne_hyphen {c : Char} (h : isBase32Char c = true) : c ≠ '-' := by
  intro e
  subst e
  exact absurd h (by decide)

theorem jsToLowerChar_idem (c : Char) :
    jsToLowerChar (jsToLowerChar c) = jsToLowerChar c := by
  by_cases h : 65 ≤ c.toNat ∧ c.toNat ≤ 90
  · have hin : jsToLowerChar c = Char.ofNat (c.toNat + 32) := by
      rw [jsToLowerChar, if_pos h]
    rw [hin, jsToLowerChar,
      if_neg (by rw [toNat_ofNat_of_lt (by omega : c.toNat + 32 < 55296)]; omega)]
  · have hin : jsToLowerChar c = c := by rw [jsToLowerChar, if_neg h]
    rw [hin, hin]

theorem map_id_of_fixed {f : Char → Char} :
    ∀ l : List Char, (∀ c ∈ l, f c = c) → l.map f = l := by
  intro l h
  induction l with
  | nil => rfl
  | cons c cs ih =>
    rw [List.map_cons, h c (List.mem_cons_self c cs),
      ih (fun x hx => h x (List.mem_cons_of_mem c hx))]

theorem filter_addHyphensAux (l : List Char) :
    ∀ k : Nat, (∀ c ∈ l, c ≠ '-') →
      (addHyphensAux k l).filter (fun c => c ≠ '-') = l := by
  induction l with
  | nil => intro k _; cases k <;> rfl
  | cons c cs ih =>
    intro k h
    have hc : c ≠ '-' := h c (List.mem_cons_self c cs)
    have h' : ∀ x ∈ cs, x ≠ '-' := fun x hx => h x (List.mem_cons_of_mem c hx)
    cases k with
    | zero =>
      simp only [addHyphensAux, List.filter_cons, decide_eq_true_eq]
      rw [if_neg (by simp), if_pos hc, ih 5 h']
    | succ k =>
      simp only [addHyphensAux, List.filter_cons, decide_eq_true_eq]
      rw [if_pos hc, ih k h']

/-- C6: for every valid 39-character Base32 string s, every input whose
hyphen-stripped upper-cased form equals s — in particular s under any
casing, and the canonical 6-character-group hyphenation of s — is
accepted by validateSymbolAddress with normalized value s; and every
input whose hyphen-stripped upper-cased form is not exactly 39 characters
of the Base32 class is rejected. -/
theorem C6_validate_address_accept_reject (s t : JSString) :
    (s.length = 39 → s.all isBase32Char = true → normalizeAddress t = s →
      (validateSymbolAddress t).isValid = true ∧
      (validateSymbolAddress t).normalizedAddress = some s)
    ∧ (s.length = 39 → s.all isBase32Char = true →
        normalizeAddress (addHyphens s) = s)
    ∧ (((normalizeAddress t).length ≠ 39 ∨
        (normalizeAddress t).all isBase32Char = false) →
      (validateSymbolAddress t).isValid = false) := by
  refine ⟨?_, ?_, ?_⟩
  · intro hlen hall hnorm
    have ht : t.isEmpty = false := by
      cases t with
      | nil =>
        rw [show normalizeAddress [] = [] from rfl] at hnorm
        rw [← hnorm] at hlen
        simp at hlen
      | cons c cs => rfl
    have hsE : s.isEmpty = false := by
      cases s with
      | nil => simp at hlen
      | cons c cs => rfl
    constructor <;>
      simp [validateSymbolAddress, ht, hnorm, hlen, base32Test, hsE, hall]
  · intro hlen hall
    have hnh : ∀ c ∈ s, c ≠ '-' :=
      fun c hc => base32_ne_hyphen (by rw [List.all_eq_true] at hall; exact hall c hc)
    rw [normalizeAddress, addHyphens, filter_addHyphensAux s 6 hnh]
    exact map_id_of_fixed s
      (fun c hc => jsToUpperChar_of_base32 (by rw [List.all_eq_true] at hall; exact hall c hc))
  · intro hrej
    by_cases hE : t.isEmpty
    · simp [validateSymbolAddress, hE]
    · rcases hrej with h | h
      · simp [validateSymbolAddress, hE, h]
      · by_cases hl : (normalizeAddress t).length = 39
        · simp [validateSymbolAddress, hE, hl, base32Test, h]
        · simp [validateSymbolAddress, hE, hl]

/-- C6 witness: a concrete lower-cased hyphenated input is accepted and
normalizes to the expected 39-character address, the canonical
hyphenation strips back, and a short input is rejected. -/
theorem C6_validate_address_accept_reject_witness :
    ((validateSymbolAddress (jstr "tcifsm-qzax3i-dphup2-rtxp26-n6bjrn-kebbkp-33i")).isValid = true ∧
      (validateSymbolAddress (jstr "tcifsm-qzax3i-dphup2-rtxp26-n6bjrn-kebbkp-33i")).normalizedAddress
        = some (jstr "TCIFSMQZAX3IDPHUP2RTXP26N6BJRNKEBBKP33I"))
    ∧ normalizeAddress (addHyphens (jstr "TCIFSMQZAX3IDPHUP2RTXP26N6BJRNKEBBKP33I"))
        = jstr "TCIFSMQZAX3IDPHUP2RTXP26N6BJRNKEBBKP33I"
    ∧ (validateSymbolAddress (jstr "ABC")).isValid = false :=
  ⟨(C6_validate_address_accept_reject (jstr "TCIFSMQZAX3IDPHUP2RTXP26N6BJRNKEBBKP33I")
      (jstr "tcifsm-qzax3i-dphup2-rtxp26-n6bjrn-kebbkp-33i")).1
      (by decide) (by decide) (by decide),
    (C6_validate_address_accept_reject (jstr "TCIFSMQZAX3IDPHUP2RTXP26N6BJRNKEBBKP33I")
      (jstr "ABC")).2.1 (by decide) (by decide),
    (C6_validate_address_accept_reject (jstr "TCIFSMQZAX3IDPHUP2RTXP26N6BJRNKEBBKP33I")
      (jstr "ABC")).2.2 (by decide)⟩

/-- A 45-character input whose six hyphens sit at the end (offsets 39-44)
instead of the fixed offsets 6, 13, 20, 27, 34, 41. -/
def misplacedHyphenAddress : JSString :=
  List.replicate 39 'A' ++ List.replicate 6 '-'

/-- C5 counterexample: validateSymbolAddress — the validator invoked by
the Address Registry's add operation — accepts a 45-character input whose
hyphens are NOT at the fixed offsets (offset 6 holds the letter A), because
it never checks hyphen positions; the claim says such an input is
rejected. -/
theorem C5_counterexample_misplaced_hyphens_accepted :
    misplacedHyphenAddress.length = 45
    ∧ misplacedHyphenAddress.get? 6 = some 'A'
    ∧ (validateSymbolAddress misplacedHyphenAddress).isValid = true := by
  refine ⟨by decide, by decide, ?_⟩
  decide

/-- C5 (amended): validateSymbolAddress imposes no hyphen-position
requirement at all — its verdict depends only on the hyphen-stripped
upper-cased form of the input — while the fixed-offset check of the claim
exists only in the separate helper validateFormattedAddress, which the
add operation does not call. -/
theorem C5_validator_hyphen_position_blind :
    (∀ t u : JSString, t ≠ [] → u ≠ [] → normalizeAddress t = normalizeAddress u →
      validateSymbolAddress t = validateSymbolAddress u)
    ∧ (∀ l : JSString, validateFormattedAddress l = true →
        l.length = 45 ∧ ∀ p ∈ expectedHyphens, l.get? p = some '-') := by
  constructor
  · intro t u ht hu hnorm
    have ht' : t.isEmpty = false := by cases t with | nil => exact absurd rfl ht | cons c cs => rfl
    have hu' : u.isEmpty = false := by cases u with | nil => exact absurd rfl hu | cons c cs => rfl
    simp [validateSymbolAddress, ht', hu', hnorm]
  · intro l h
    rw [validateFormattedAddress] at h
    by_cases h45 : l.length ≠ 45
    · rw [if_pos h45] at h; exact absurd h (by simp)
    · refine ⟨by omega, ?_⟩
      rw [if_neg h45] at h
      by_cases hall : expectedHyphens.all (fun pos => l.get? pos == some '-') = true
      · intro p hp
        rw [List.all_eq_true] at hall
        have := hall p hp
        simpa using this
      · rw [if_neg (by simpa using hall)] at h
        exact absurd h (by simp)

/-- C5 witness: two non-empty inputs with equal normalized forms validate
identically, and a correctly hyphenated address passes
validateFormattedAddress with hyphens at the fixed offsets. -/
theorem C5_validator_hyphen_position_blind_witness :
    validateSymbolAddress (jstr "TCIFSMQZAX3IDPHUP2RTXP26N6BJRNKEBBKP33I-")
      = validateSymbolAddress (jstr "-TCIFSMQZAX3IDPHUP2RTXP26N6BJRNKEBBKP33I")
    ∧ ((jstr "TCIFSM-QZAX3I-DPHUP2-RTXP26-N6BJRN-KEBBKP-33I").length = 45
        ∧ ∀ p ∈ expectedHyphens,
            (jstr "TCIFSM-QZAX3I-DPHUP2-RTXP26-N6BJRN-KEBBKP-33I").get? p = some '-') :=
  ⟨C5_validator_hyphen_position_blind.1
      (jstr "TCIFSMQZAX3IDPHUP2RTXP26N6BJRNKEBBKP33I-")
      (jstr "-TCIFSMQZAX3IDPHUP2RTXP26N6BJRNKEBBKP33I")
      (by decide) (by decide) (by decide),
    C5_validator_hyphen_position_blind.2
      (jstr "TCIFSM-QZAX3I-DPHUP2-RTXP26-N6BJRN-KEBBKP-33I") (by decide)⟩

/-- C9 counterexample: on an input ending in two slashes, normalizeNodeUrl
(which removes at most one trailing slash, since the regex is anchored and
not global) returns a string that still ends in a slash, and applying it
again changes the result — so the claim's "result never ends in a slash"
and idempotence both fail. -/
theorem C9_counterexample_double_slash :
    (normalizeNodeUrl (jstr "https://example.com//")).getLast? = some '/'
    ∧ normalizeNodeUrl (normalizeNodeUrl (jstr "https://example.com//"))
        ≠ normalizeNodeUrl (jstr "https://example.com//") := by
  constructor
  · decide
  · decide

/-- C9 (amended): normalizeNodeUrl lower-cases its input and removes at
most one trailing slash; whenever the lower-cased input does not end in
two consecutive slashes, the result does not end in a slash and the
function is idempotent there. -/
theorem C9_normalize_url_strips_one_slash (l : JSString) :
    (normalizeNodeUrl l = jsToLowerCase l
      ∨ jsToLowerCase l = normalizeNodeUrl l ++ ['/'])
    ∧ (¬ List.IsSuffix ['/', '/'] (jsToLowerCase l) →
        (normalizeNodeUrl l).getLast? ≠ some '/'
        ∧ normalizeNodeUrl (normalizeNodeUrl l) = normalizeNodeUrl l) := by
  have hmap : ∀ r : JSString, r.Sublist (jsToLowerCase l) → jsToLowerCase r = r := by
    intro r hr
    refine map_id_of_fixed r (fun c hc => ?_)
    have hc' : c ∈ jsToLowerCase l := hr.mem hc
    rw [jsToLowerCase] at hc'
    obtain ⟨d, _, rfl⟩ := List.mem_map.mp hc'
    exact jsToLowerChar_idem d
  constructor
  · rw [normalizeNodeUrl, dropTrailingSlashOnce]
    by_cases hl : (jsToLowerCase l).getLast? = some '/'
    · rw [if_pos hl]
      right
      obtain ⟨ys, hys⟩ := List.getLast?_eq_some_iff.mp hl
      rw [hys, List.dropLast_concat]
    · rw [if_neg hl]
      left
      rfl
  · intro hns
    have hone : (dropTrailingSlashOnce (jsToLowerCase l)).getLast? ≠ some '/' := by
      rw [dropTrailingSlashOnce]
      by_cases hl : (jsToLowerCase l).getLast? = some '/'
      · rw [if_pos hl]
        intro hbad
        obtain ⟨ys, hys⟩ := List.getLast?_eq_some_iff.mp hl
        rw [hys, List.dropLast_concat] at hbad
        obtain ⟨zs, hzs⟩ := List.getLast?_eq_some_iff.mp hbad
        exact hns ⟨zs, by rw [hys, hzs]; simp⟩
      · rw [if_neg hl]; exact hl
    refine ⟨by rw [normalizeNodeUrl]; exact hone, ?_⟩
    have hsub : (normalizeNodeUrl l).Sublist (jsToLowerCase l) := by
      rw [normalizeNodeUrl, dropTrailingSlashOnce]
      by_cases hl : (jsToLowerCase l).getLast? = some '/'
      · rw [if_pos hl]; exact List.dropLast_sublist _
      · rw [if_neg hl]
    rw [show normalizeNodeUrl (normalizeNodeUrl l)
        = dropTrailingSlashOnce (jsToLowerCase (normalizeNodeUrl l)) from rfl,
      hmap _ hsub, dropTrailingSlashOnce, if_neg (by rw [normalizeNodeUrl]; exact hone)]

/-- C9 witness: on a concrete input without a doubled trailing slash the
amended properties hold: the at-most-one-strip disjunction, no trailing
slash in the result, and idempotence. -/
theorem C9_normalize_url_strips_one_slash_witness :
    (normalizeNodeUrl (jstr "https://Example.com/") = jsToLowerCase (jstr "https://Example.com/")
      ∨ jsToLowerCase (jstr "https://Example.com/")
          = normalizeNodeUrl (jstr "https://Example.com/") ++ ['/'])
    ∧ ((normalizeNodeUrl (jstr "https://Example.com/")).getLast? ≠ some '/'
        ∧ normalizeNodeUrl (normalizeNodeUrl (jstr "https://Example.com/"))
            = normalizeNodeUrl (jstr "https://Example.com/")) :=
  ⟨(C9_normalize_url_strips_one_slash (jstr "https://Example.com/")).1,
    (C9_normalize_url_strips_one_slash (jstr "https://Example.com/")).2 (by decide)⟩

/-! Node health checking (node-validation.ts). -/

/-- Node connection status (types/node.ts `NodeStatus`). -/
inductive NodeStatus where
  | online
  | offline
  | unknown
  deriving Repr, DecidableEq

/-- Fields picked from the `/node/info` JSON body by
`performNodeHealthCheck` (node-validation.ts). -/
structure NodeInfoDTO where
  version : Option JSString := none
  publicKey : Option JSString := none
  networkGenerationHashSeed : Option JSString := none
  networkIdentifier : Option Int := none
  roles : Option Int := none
  port : Option Int := none
  host : Option JSString := none
  friendlyName : Option JSString := none
  deriving Repr, DecidableEq

/-- Outcome of the `fetch` call inside `performNodeHealthCheck`, as seen
at the I/O boundary: an HTTP response (of any status) with a parsed JSON
body, a timeout abort (`AbortError`), a connectivity failure
(`TypeError`), any other thrown `Error` carrying its message (possibly
empty), or a thrown non-`Error` value. -/
inductive FetchOutcome where
  | response (status : Nat) (statusText : JSString) (body : NodeInfoDTO)
  | abortError
  | typeError
  | otherError (message : JSString)
  | nonErrorThrown
  deriving Repr, DecidableEq

/-- Model of `Response.ok`: status in the 200-299 range. -/
def statusOk (status : Nat) : Bool := 200 ≤ status && status ≤ 299

/-- Decimal rendering of a number, for message interpolation. -/
def natToJS (n : Nat) : JSString := (Nat.repr n).data

/-- Result record of `performNodeHealthCheck` (types/node.ts
`NodeHealthCheck`). -/
structure NodeHealthCheck where
  nodeId : JSString
  checkedAt : JSString
  status : NodeStatus
  responseTime : Option Nat := none
  error : Option JSString := none
  nodeInfo : Option NodeInfoDTO := none
  deriving Repr, DecidableEq

/-- True when the fetch outcome is a failure for the health check: a
non-2xx response or any thrown exception. -/
def isFailureOutcome : FetchOutcome → Bool
  | .response status _ _ => !statusOk status
  | _ => true

/-- Embedding of `performNodeHealthCheck` (node-validation.ts).  The
`checkedAt` stamp and measured `responseTime` are passed in as data
(`new Date().toISOString()` and `Date.now() - startTime`); the fetch
outcome is the sampled environment.  Every branch returns a record —
nothing is thrown past this function. -/
def performNodeHealthCheck (nodeId : JSString) (checkedAt : JSString)
    (responseTime : Nat) (outcome : FetchOutcome) : NodeHealthCheck :=
  match outcome with
  | .response status statusText body =>
    if statusOk status then
      { nodeId, checkedAt, status := .online
        responseTime := some responseTime, nodeInfo := some body }
    else
      { nodeId, checkedAt, status := .offline
        responseTime := some responseTime
        error := some (jstr "HTTP " ++ natToJS status ++ jstr ": " ++ statusText) }
  | .abortError =>
    { nodeId, checkedAt, status := .offline
      responseTime := some responseTime, error := some (jstr "Request timeout") }
  | .typeError =>
    { nodeId, checkedAt, status := .offline
      responseTime := some responseTime, error := some (jstr "Network error") }
  | .otherError message =>
    { nodeId, checkedAt, status := .offline
      responseTime := some responseTime, error := some message }
  | .nonErrorThrown =>
    { nodeId, checkedAt, status := .offline
      responseTime := some responseTime, error := some (jstr "Unknown error") }

/-- Per-node environment of one health check inside a batch. -/
structure HealthCheckEnv where
  checkedAt : JSString
  responseTime : Nat
  outcome : FetchOutcome
  deriving Repr, DecidableEq

/-- Embedding of `performBatchHealthCheck` (node-validation.ts): one
health check per node, joined by `Promise.all` (which never rejects here
because `performNodeHealthCheck` never throws). -/
def performBatchHealthCheck (nodes : List (JSString × HealthCheckEnv)) :
    List NodeHealthCheck :=
  nodes.map (fun p => performNodeHealthCheck p.1 p.2.checkedAt p.2.responseTime p.2.outcome)

/-- C7 counterexample: a thrown generic `Error` whose message is the
empty string is a failure, and the returned record is `offline` — but its
error field is the empty string, not the non-empty message the claim
requires. -/
theorem C7_counterexample_empty_error_message :
    isFailureOutcome (FetchOutcome.otherError []) = true
    ∧ (performNodeHealthCheck (jstr "node-1") (jstr "2025-01-01T00:00:00.000Z") 5
        (FetchOutcome.otherError [])).status = NodeStatus.offline
    ∧ (performNodeHealthCheck (jstr "node-1") (jstr "2025-01-01T00:00:00.000Z") 5
        (FetchOutcome.otherError [])).error = some [] := by
  refine ⟨rfl, rfl, rfl⟩

/-- C7 (amended): a health check never propagates a failure — every
outcome yields a record stamped with the given `checkedAt` and the given
node id; every failing outcome yields `status = offline` with the error
field set, and that error message is non-empty for timeout, connectivity,
HTTP and non-`Error` failures (for a thrown generic `Error` the message is
passed through verbatim, so it is empty exactly when the thrown error's
message was); a batch over N nodes returns exactly N records in 1:1
correspondence with the inputs. -/
theorem C7_health_check_failures_become_records :
    (∀ (nodeId checkedAt : JSString) (rt : Nat) (outcome : FetchOutcome),
      (performNodeHealthCheck nodeId checkedAt rt outcome).nodeId = nodeId
      ∧ (performNodeHealthCheck nodeId checkedAt rt outcome).checkedAt = checkedAt
      ∧ (isFailureOutcome outcome = true →
          (performNodeHealthCheck nodeId checkedAt rt outcome).status = NodeStatus.offline
          ∧ (performNodeHealthCheck nodeId checkedAt rt outcome).error.isSome = true)
      ∧ (isFailureOutcome outcome = true → (∀ m, outcome ≠ FetchOutcome.otherError m) →
          ∃ e, (performNodeHealthCheck nodeId checkedAt rt outcome).error = some e ∧ e ≠ []))
    ∧ (∀ nodes : List (JSString × HealthCheckEnv),
        (performBatchHealthCheck nodes).length = nodes.length
        ∧ ∀ (i : Nat) (p : JSString × HealthCheckEnv), nodes.get? i = some p →
            (performBatchHealthCheck nodes).get? i
              = some (performNodeHealthCheck p.1 p.2.checkedAt p.2.responseTime p.2.outcome)) := by
  constructor
  · intro nodeId checkedAt rt outcome
    refine ⟨?_, ?_, ?_, ?_⟩
    · cases outcome with
      | response status statusText body =>
        by_cases h : statusOk status = true
        · simp [performNodeHealthCheck, h]
        · simp [performNodeHealthCheck, h]
      | abortError => rfl
      | typeError => rfl
      | otherError m => rfl
      | nonErrorThrown => rfl
    · cases outcome with
      | response status statusText body =>
        by_cases h : statusOk status = true
        · simp [performNodeHealthCheck, h]
        · simp [performNodeHealthCheck, h]
      | abortError => rfl
      | typeError => rfl
      | otherError m => rfl
      | nonErrorThrown => rfl
    · intro hfail
      cases outcome with
      | response status statusText body =>
        have h : statusOk status = false := by
          simpa [isFailureOutcome] using hfail
        simp [performNodeHealthCheck, h]
      | abortError => exact ⟨rfl, rfl⟩
      | typeError => exact ⟨rfl, rfl⟩
      | otherError m => exact ⟨rfl, rfl⟩
      | nonErrorThrown => exact ⟨rfl, rfl⟩
    · intro hfail hno
      cases outcome with
      | response status statusText body =>
        have h : statusOk status = false := by
          simpa [isFailureOutcome] using hfail
        refine ⟨jstr "HTTP " ++ natToJS status ++ jstr ": " ++ statusText, ?_, ?_⟩
        · simp [performNodeHealthCheck, h]
        · intro hbad
          rw [show jstr "HTTP " = 'H' :: jstr "TTP " from rfl, List.cons_append] at hbad
          exact List.cons_ne_nil _ _ hbad
      | abortError => exact ⟨_, rfl, by decide⟩
      | typeError => exact ⟨_, rfl, by decide⟩
      | otherError m => exact absurd rfl (hno m)
      | nonErrorThrown => exact ⟨_, rfl, by decide⟩
  · intro nodes
    refine ⟨by simp [performBatchHealthCheck], ?_⟩
    intro i p hp
    rw [performBatchHealthCheck, List.get?_map, hp]
    rfl

/-- C7 witness: a concrete batch of three nodes, two failing (HTTP 500
and a timeout), returns three records with the failing ones offline and
carrying non-empty errors. -/
theorem C7_health_check_failures_become_records_witness :
    ((performNodeHealthCheck (jstr "a") (jstr "t") 7 FetchOutcome.abortError).status
        = NodeStatus.offline
      ∧ (performNodeHealthCheck (jstr "a") (jstr "t") 7 FetchOutcome.abortError).error.isSome
        = true)
    ∧ (∃ e, (performNodeHealthCheck (jstr "a") (jstr "t") 7
          (FetchOutcome.response 500 (jstr "Internal Server Error") {})).error = some e ∧ e ≠ [])
    ∧ (performBatchHealthCheck
        [(jstr "a", ⟨jstr "t", 7, FetchOutcome.abortError⟩),
          (jstr "b", ⟨jstr "t", 9, FetchOutcome.response 200 [] {}⟩)]).length = 2 :=
  ⟨((C7_health_check_failures_become_records.1 (jstr "a") (jstr "t") 7
      FetchOutcome.abortError).2.2.1 (by decide)),
    ((C7_health_check_failures_become_records.1 (jstr "a") (jstr "t") 7
      (FetchOutcome.response 500 (jstr "Internal Server Error") {})).2.2.2 (by decide)
      (by intro m h; cases h)),
    (C7_health_check_failures_become_records.2
      [(jstr "a", ⟨jstr "t", 7, FetchOutcome.abortError⟩),
        (jstr "b", ⟨jstr "t", 9, FetchOutcome.response 200 [] {}⟩)]).1⟩

/-! Transaction fetcher deadline conversion (symbol-api.ts). -/

/-- Nemesis-block timestamp constant from `parseDeadline`
(symbol-api.ts): 2021-03-16 00:06:25 UTC in Unix milliseconds. -/
def nemesisTimestamp : Int := 1615852585000

/-- Embedding of `parseDeadline` (symbol-api.ts): the deadline string is
a number of milliseconds since the nemesis block, modelled by its integer
value; the resulting `Date` is modelled by its Unix-millisecond value. -/
def parseDeadline (deadline : Int) : Int :=
  nemesisTimestamp + deadline

/-- Cosignature entry of a raw partial transaction (types, symbol-api). -/
structure CosignatureDTO where
  signerPublicKey : JSString
  deriving Repr, DecidableEq

/-- Raw partial transaction item of the REST response
(`PartialTransactionsResponseDTO` entry). -/
structure TransactionItemDTO where
  id : JSString
  metaHash : JSString
  signerPublicKey : JSString
  maxFee : JSString
  deadline : Int
  cosignatures : List CosignatureDTO
  deriving Repr, DecidableEq

/-- Pagination object of the REST response. -/
structure PaginationDTO where
  pageNumber : Int
  pageSize : Int
  deriving Repr, DecidableEq

/-- Raw REST response shape (`PartialTransactionsResponseDTO`). -/
structure PartialTransactionsResponseDTO where
  data : List TransactionItemDTO
  pagination : PaginationDTO
  deriving Repr, DecidableEq

/-- Display form of one pending transaction (types/transaction.ts
`DisplayTransaction`); `createdAt` is the derived calendar time. -/
structure DisplayTransaction where
  id : JSString
  hash : JSString
  signerPublicKey : JSString
  maxFee : JSString
  deadline : Int
  cosignatureCount : Nat
  cosignerPublicKeys : List JSString
  createdAt : Int
  deriving Repr, DecidableEq

/-- Embedding of `convertToDisplayTransactions` (symbol-api.ts). -/
def convertToDisplayTransactions (response : PartialTransactionsResponseDTO) :
    List DisplayTransaction :=
  response.data.map (fun item =>
    { id := item.id
      hash := item.metaHash
      signerPublicKey := item.signerPublicKey
      maxFee := item.maxFee
      deadline := item.deadline
      cosignatureCount := item.cosignatures.length
      cosignerPublicKeys := item.cosignatures.map (fun c => c.signerPublicKey)
      createdAt := parseDeadline item.deadline })

/-- C8: the calendar time derived for every fetched transaction equals
the network-genesis instant plus the raw deadline exactly, and
subtracting the genesis instant recovers the raw deadline
(round-trippability); the conversion also preserves the list length and
the per-item hash. -/
theorem C8_deadline_conversion_exact (response : PartialTransactionsResponseDTO) :
    (convertToDisplayTransactions response).length = response.data.length
    ∧ (∀ d : Int, parseDeadline d = nemesisTimestamp + d ∧ parseDeadline d - nemesisTimestamp = d)
    ∧ (∀ (i : Nat) (item : TransactionItemDTO), response.data.get? i = some item →
        ∃ dt : DisplayTransaction,
          (convertToDisplayTransactions response).get? i = some dt
          ∧ dt.createdAt = nemesisTimestamp + item.deadline
          ∧ dt.createdAt - nemesisTimestamp = item.deadline
          ∧ dt.hash = item.metaHash
          ∧ dt.deadline = item.deadline) := by
  refine ⟨by simp [convertToDisplayTransactions], ?_, ?_⟩
  · intro d
    constructor
    · rfl
    · rw [parseDeadline]
      omega
  · intro i item hi
    refine ⟨{ id := item.id, hash := item.metaHash
              signerPublicKey := item.signerPublicKey
              maxFee := item.maxFee, deadline := item.deadline
              cosignatureCount := item.cosignatures.length
              cosignerPublicKeys := item.cosignatures.map (fun c => c.signerPublicKey)
              createdAt := parseDeadline item.deadline }, ?_, rfl, ?_, rfl, rfl⟩
    · rw [convertToDisplayTransactions, List.get?_map, hi]
      rfl
    · show parseDeadline item.deadline - nemesisTimestamp = item.deadline
      rw [parseDeadline]
      omega

/-- C8 witness: a concrete one-item response converts with
`createdAt = nemesis + deadline` recovering the deadline exactly. -/
theorem C8_deadline_conversion_exact_witness :
    ∃ dt : DisplayTransaction,
      (convertToDisplayTransactions
        { data := [{ id := jstr "1", metaHash := jstr "ABCD"
                     signerPublicKey := jstr "PK", maxFee := jstr "100"
                     deadline := 8336550000, cosignatures := [] }]
          pagination := { pageNumber := 1, pageSize := 100 } }).get? 0 = some dt
      ∧ dt.createdAt = nemesisTimestamp + 8336550000
      ∧ dt.createdAt - nemesisTimestamp = 8336550000
      ∧ dt.hash = jstr "ABCD"
      ∧ dt.deadline = 8336550000 :=
  (C8_deadline_conversion_exact
    { data := [{ id := jstr "1", metaHash := jstr "ABCD"
                 signerPublicKey := jstr "PK", maxFee := jstr "100"
                 deadline := 8336550000, cosignatures := [] }]
      pagination := { pageNumber := 1, pageSize := 100 } }).2.2 0
    { id := jstr "1", metaHash := jstr "ABCD"
      signerPublicKey := jstr "PK", maxFee := jstr "100"
      deadline := 8336550000, cosignatures := [] } rfl

/-! Data model: addresses and nodes (types/address.ts, types/node.ts). -/

/-- Network type (types/node.ts `NetworkType`). -/
inductive NetworkType where
  | TESTNET
  | MAINNET
  deriving Repr, DecidableEq

/-- Address record (types/address.ts `Address`). -/
structure Address where
  address : JSString
  memo : JSString
  active : Bool
  createdAt : JSString
  lastUsedAt : Option JSString := none
  publicKey : Option JSString := none
  balance : Option JSString := none
  deriving Repr, DecidableEq

/-- Node record (types/node.ts `Node`). -/
structure Node where
  id : JSString
  url : JSString
  network : NetworkType
  active : Bool
  memo : JSString
  createdAt : JSString
  lastUsedAt : Option JSString := none
  version : Option JSString := none
  publicKey : Option JSString := none
  networkGenerationHashSeed : Option JSString := none
  networkIdentifier : Option Int := none
  roles : Option Int := none
  port : Option Int := none
  host : Option JSString := none
  friendlyName : Option JSString := none
  status : NodeStatus
  responseTime : Option Nat := none
  lastCheckedAt : Option JSString := none
  lastError : Option JSString := none
  deriving Repr, DecidableEq

/-! Signing orchestrator (store/signing.ts, symbol-api.ts). -/

/-- Signing machine status (types/transaction.ts `SigningState.status`). -/
inductive SigningStatus where
  | idle
  | signing
  | announcing
  | success
  | error
  deriving Repr, DecidableEq

/-- Cosignature payload produced by the cryptography library
(symbol-sign.ts `SignResult.cosignature`). -/
structure CosignaturePayload where
  parentHash : JSString
  signature : JSString
  signerPublicKey : JSString
  version : JSString
  deriving Repr, DecidableEq

/-- Signing machine state (types/transaction.ts `SigningState`);
`lastUpdated` is the write timestamp in milliseconds. -/
structure SigningState where
  transactionHash : Option JSString
  status : SigningStatus
  cosignature : Option CosignaturePayload
  error : Option JSString
  successMessage : Option JSString
  lastUpdated : Option Nat
  deriving Repr, DecidableEq

/-- Initial value of `signingStateAtom` (store/signing.ts). -/
def initialSigningState : SigningState :=
  { transactionHash := none, status := SigningStatus.idle, cosignature := none
    error := none, successMessage := none, lastUpdated := none }

/-- Model of the JavaScript `a || b` idiom on an optional string: `b`
when `a` is absent or empty (both falsy), otherwise `a`. -/
def jsOrStr (a : Option JSString) (b : JSString) : JSString :=
  match a with
  | some s => if s.isEmpty then b else s
  | none => b

/-- API error object (types/transaction.ts `ApiError`). -/
structure ApiError where
  code : JSString
  message : JSString
  deriving Repr, DecidableEq

/-- Discriminated API result (types/transaction.ts `ApiResult`). -/
structure ApiResult (α : Type) where
  success : Bool
  data : Option α := none
  error : Option ApiError := none
  deriving Repr, DecidableEq

/-- Outcome of the `ky.put` call inside `announceCosignature`, as seen at
the I/O boundary: an HTTP response (ky raises `HTTPError` for non-2xx
statuses, which the source catches), a `TimeoutError`, or a thrown
connectivity `Error`. -/
inductive AnnounceHttp where
  | response (status : Nat) (statusText : JSString)
  | timeout
  | networkFailure
  deriving Repr, DecidableEq

/-- Embedding of `announceCosignature` (symbol-api.ts:230-348).  The
cosignature argument is optional because the caller passes
`signResult.cosignature!`: when it is absent, the property access
`cosignature.parentHash` throws a `TypeError` that the function's outer
catch converts into an `UNKNOWN_ERROR` result. -/
def announceCosignature (nodeUrl : JSString) (cosignature : Option CosignaturePayload)
    (http : AnnounceHttp) : ApiResult JSString :=
  if nodeUrl.isEmpty then
    { success := false
      error := some ⟨jstr "INVALID_PARAMS", jstr "ノードURLは必須です"⟩ }
  else
    match cosignature with
    | none =>
      { success := false
        error := some ⟨jstr "UNKNOWN_ERROR",
          jstr "Cannot read properties of undefined (reading 'parentHash')"⟩ }
    | some c =>
      if c.parentHash.isEmpty || c.signature.isEmpty || c.signerPublicKey.isEmpty then
        { success := false
          error := some ⟨jstr "INVALID_PARAMS", jstr "連署データが不完全です"⟩ }
      else
        match http with
        | AnnounceHttp.response status statusText =>
          if statusOk status then
            if status = 202 then
              { success := true, data := some (jstr "連署が正常にアナウンスされました") }
            else
              { success := false
                error := some ⟨jstr "UNEXPECTED_RESPONSE",
                  jstr "予期しないレスポンス: " ++ natToJS status⟩ }
          else if status = 400 then
            { success := false
              error := some ⟨jstr "INVALID_CONTENT", jstr "無効なリクエスト内容です"⟩ }
          else if status = 409 then
            { success := false
              error := some ⟨jstr "VALIDATION_ERROR", jstr "連署の検証に失敗しました"⟩ }
          else
            { success := false
              error := some ⟨jstr "SERVER_ERROR",
                jstr "サーバーエラー: " ++ natToJS status ++ jstr " " ++ statusText⟩ }
        | AnnounceHttp.timeout =>
          { success := false
            error := some ⟨jstr "TIMEOUT", jstr "リクエストがタイムアウトしました"⟩ }
        | AnnounceHttp.networkFailure =>
          { success := false
            error := some ⟨jstr "NETWORK_ERROR", jstr "ネットワーク接続に失敗しました"⟩ }

/-- Result returned by `signTransaction` (symbol-sign.ts `SignResult`). -/
structure SignResult where
  success : Bool
  cosignature : Option CosignaturePayload := none
  error : Option JSString := none
  deriving Repr, DecidableEq

/-- Outcome of awaiting `signTransaction`: a returned result, or a
rejected promise carrying an `Error` message (`some`) or a non-`Error`
value (`none`). -/
inductive SignOutcome where
  | ret (result : SignResult)
  | thrown (message : Option JSString)
  deriving Repr, DecidableEq

/-- Parameters of `executeSigningAtom` (types/transaction.ts
`SignRequestParams`). -/
structure SignRequestParams where
  transactionHash : JSString
  privateKey : JSString
  networkType : NetworkType
  deriving Repr, DecidableEq

/-- The two registry-derived atoms read by `executeSigningAtom`:
`activeAddressAtom` and `activeNodeAtom`. -/
structure SigningEnv where
  activeAddress : Option Address
  activeNode : Option Node
  deriving Repr, DecidableEq

/-- Observable result of one `executeSigningAtom` invocation: the states
written to `signingStateAtom` in order, the final state, and whether
`signTransaction` / `announceCosignature` were invoked. -/
structure ExecResult where
  finalState : SigningState
  trace : List SigningState
  signCalled : Bool
  announceCalled : Bool
  deriving Repr, DecidableEq

/-- Embedding of `executeSigningAtom` (store/signing.ts:113-211).  The
pre-invocation signing state is taken as a parameter to express when the
invocation happens; the source never reads it — it only reads
`activeAddressAtom` and `activeNodeAtom`.  `signOutcome` and `http` are
the sampled environments of the two awaited calls. -/
def executeSigning (env : SigningEnv) (params : SignRequestParams)
    (signOutcome : SignOutcome) (http : AnnounceHttp)
    (state0 : SigningState) (now : Nat) : ExecResult :=
  match env.activeAddress, env.activeNode with
  | some _, some node =>
    let signingSt : SigningState :=
      { transactionHash := some params.transactionHash, status := SigningStatus.signing
        cosignature := none, error := none, successMessage := none, lastUpdated := some now }
    match signOutcome with
    | SignOutcome.thrown msg =>
      let st : SigningState :=
        { transactionHash := some params.transactionHash, status := SigningStatus.error
          cosignature := none
          error := some (match msg with
            | some m => m
            | none => jstr "予期しないエラーが発生しました")
          successMessage := none, lastUpdated := some now }
      { finalState := st, trace := [signingSt, st]
        signCalled := true, announceCalled := false }
    | SignOutcome.ret r =>
      if r.success = false then
        let st : SigningState :=
          { transactionHash := some params.transactionHash, status := SigningStatus.error
            cosignature := none
            error := some (jsOrStr r.error (jstr "署名処理に失敗しました"))
            successMessage := none, lastUpdated := some now }
        { finalState := st, trace := [signingSt, st]
          signCalled := true, announceCalled := false }
      else
        let announcingSt : SigningState :=
          { transactionHash := some params.transactionHash, status := SigningStatus.announcing
            cosignature := r.cosignature, error := none
            successMessage := none, lastUpdated := some now }
        let announceResult := announceCosignature node.url r.cosignature http
        if announceResult.success = false then
          let st : SigningState :=
            { transactionHash := some params.transactionHash, status := SigningStatus.error
              cosignature := r.cosignature
              error := some (jsOrStr (announceResult.error.map (fun e => e.message))
                (jstr "アナウンスに失敗しました"))
              successMessage := none, lastUpdated := some now }
          { finalState := st, trace := [signingSt, announcingSt, st]
            signCalled := true, announceCalled := true }
        else
          let st : SigningState :=
            { transactionHash := some params.transactionHash, status := SigningStatus.success
              cosignature := r.cosignature, error := none
              successMessage := some (jsOrStr announceResult.data
                (jstr "署名とアナウンスが完了しました"))
              lastUpdated := some now }
          { finalState := st, trace := [signingSt, announcingSt, st]
            signCalled := true, announceCalled := true }
  | _, _ =>
    let st : SigningState :=
      { transactionHash := some params.transactionHash, status := SigningStatus.error
        cosignature := none
        error := some (jstr "アクティブなアドレスまたはノードが設定されていません")
        successMessage := none, lastUpdated := some now }
    { finalState := st, trace := [st], signCalled := false, announceCalled := false }

/-- Result shape of the derived `canSignAtom` (store/signing.ts:58-71). -/
structure CanSignResult where
  canSign : Bool
  missingRequirements : List JSString
  deriving Repr, DecidableEq

/-- Embedding of the derived `canSignAtom` (store/signing.ts:58-71): a
view over the registries and the current signing state; it is not
consulted by `executeSigningAtom`. -/
def canSignView (env : SigningEnv) (signingState : SigningState) : CanSignResult :=
  { canSign := env.activeAddress.isSome && env.activeNode.isSome
      && !(decide (signingState.status = SigningStatus.signing))
      && !(decide (signingState.status = SigningStatus.announcing))
    missingRequirements :=
      (if env.activeAddress.isNone then [jstr "アクティブなアドレスが設定されていません"] else [])
      ++ (if env.activeNode.isNone then [jstr "アクティブなノードが設定されていません"] else [])
      ++ (if signingState.status = SigningStatus.signing
            ∨ signingState.status = SigningStatus.announcing
          then [jstr "別の署名処理が実行中です"] else []) }

/-! Concrete fixtures for the signing-machine results. -/

/-- A concrete registered address. -/
def demoAddress : Address :=
  { address := jstr "TCIFSMQZAX3IDPHUP2RTXP26N6BJRNKEBBKP33I", memo := []
    active := true, createdAt := jstr "2025-01-01T00:00:00.000Z" }

/-- A concrete registered node. -/
def demoNode : Node :=
  { id := jstr "testnet-demo", url := jstr "https://node.example.com:3001"
    network := NetworkType.TESTNET, active := true, memo := []
    createdAt := jstr "2025-01-01T00:00:00.000Z", status := NodeStatus.unknown }

/-- A concrete cosignature payload with non-empty fields. -/
def demoCosignature : CosignaturePayload :=
  { parentHash := jstr "02959444B4C4A2A3F924E298640264DDF3D93C2E1D3625373782F776282B97A4"
    signature := jstr "SIG", signerPublicKey := jstr "SPK", version := jstr "0" }

/-- Concrete signing parameters. -/
def demoParams : SignRequestParams :=
  { transactionHash := jstr "02959444B4C4A2A3F924E298640264DDF3D93C2E1D3625373782F776282B97A4"
    privateKey := jstr "26DAA8B623D9B5C19A0754A5FA607285E18962BDE291A5699FE9745C05B66CCC"
    networkType := NetworkType.TESTNET }

/-- A signing state whose status is in-flight (`signing`). -/
def busySigningState : SigningState :=
  { transactionHash := some (jstr "AA"), status := SigningStatus.signing
    cosignature := none, error := none, successMessage := none, lastUpdated := some 0 }

/-- C1 counterexample: with an active address and an active node present,
an invocation of executeSigning made while the signing state's status is
already `signing` does NOT short-circuit to `error`: the cryptography
library IS invoked (`signCalled = true`) and the run completes with
status `success` — the orchestrator never consults the in-flight state. -/
theorem C1_counterexample_reentrant_invocation_proceeds :
    busySigningState.status = SigningStatus.signing
    ∧ (executeSigning ⟨some demoAddress, some demoNode⟩ demoParams
        (SignOutcome.ret { success := true, cosignature := some demoCosignature })
        (AnnounceHttp.response 202 []) busySigningState 1).signCalled = true
    ∧ (executeSigning ⟨some demoAddress, some demoNode⟩ demoParams
        (SignOutcome.ret { success := true, cosignature := some demoCosignature })
        (AnnounceHttp.response 202 []) busySigningState 1).finalState.status
      = SigningStatus.success := by
  refine ⟨rfl, ?_, ?_⟩ <;> decide

/-- C1 (amended): executeSigning short-circuits directly to `error` with
the missing-requirements message and without invoking the cryptography
library exactly when the active address or active node is missing; the
in-flight (`signing`/`announcing`) concurrency condition is reported only
through the derived canSign view — whose flag goes false and whose
missing-requirements list names the running operation — and is not
enforced by executeSigning itself. -/
theorem C1_short_circuit_on_missing_requirements :
    (∀ (env : SigningEnv) (params : SignRequestParams) (so : SignOutcome)
        (http : AnnounceHttp) (st : SigningState) (now : Nat),
      env.activeAddress = none ∨ env.activeNode = none →
        (executeSigning env params so http st now).signCalled = false
        ∧ (executeSigning env params so http st now).announceCalled = false
        ∧ (executeSigning env params so http st now).finalState.status = SigningStatus.error
        ∧ (executeSigning env params so http st now).finalState.error
          = some (jstr "アクティブなアドレスまたはノードが設定されていません"))
    ∧ (∀ (env : SigningEnv) (st : SigningState),
        st.status = SigningStatus.signing ∨ st.status = SigningStatus.announcing →
          (canSignView env st).canSign = false
          ∧ jstr "別の署名処理が実行中です" ∈ (canSignView env st).missingRequirements) := by
  constructor
  · intro env params so http st now henv
    obtain ⟨aa, an⟩ := env
    rcases henv with h | h
    · simp only at h
      subst h
      cases an <;> exact ⟨rfl, rfl, rfl, rfl⟩
    · simp only at h
      subst h
      cases aa <;> exact ⟨rfl, rfl, rfl, rfl⟩
  · intro env st hst
    constructor
    · rcases hst with h | h <;> simp [canSignView, h]
    · rcases hst with h | h <;> simp [canSignView, h]

/-- C1 witness: with a missing active node the concrete invocation
reaches `error` without calling the library, and with a busy state the
canSign view is false and reports the running operation. -/
theorem C1_short_circuit_on_missing_requirements_witness :
    ((executeSigning ⟨some demoAddress, none⟩ demoParams
        (SignOutcome.ret { success := true, cosignature := some demoCosignature })
        (AnnounceHttp.response 202 []) initialSigningState 1).signCalled = false
      ∧ (executeSigning ⟨some demoAddress, none⟩ demoParams
          (SignOutcome.ret { success := true, cosignature := some demoCosignature })
          (AnnounceHttp.response 202 []) initialSigningState 1).announceCalled = false
      ∧ (executeSigning ⟨some demoAddress, none⟩ demoParams
          (SignOutcome.ret { success := true, cosignature := some demoCosignature })
          (AnnounceHttp.response 202 []) initialSigningState 1).finalState.status
        = SigningStatus.error
      ∧ (executeSigning ⟨some demoAddress, none⟩ demoParams
          (SignOutcome.ret { success := true, cosignature := some demoCosignature })
          (AnnounceHttp.response 202 []) initialSigningState 1).finalState.error
        = some (jstr "アクティブなアドレスまたはノードが設定されていません"))
    ∧ ((canSignView ⟨some demoAddress, some demoNode⟩ busySigningState).canSign = false
      ∧ jstr "別の署名処理が実行中です"
        ∈ (canSignView ⟨some demoAddress, some demoNode⟩ busySigningState).missingRequirements) :=
  ⟨C1_short_circuit_on_missing_requirements.1 ⟨some demoAddress, none⟩ demoParams
      (SignOutcome.ret { success := true, cosignature := some demoCosignature })
      (AnnounceHttp.response 202 []) initialSigningState 1 (Or.inr rfl),
    C1_short_circuit_on_missing_requirements.2 ⟨some demoAddress, some demoNode⟩
      busySigningState (Or.inl rfl)⟩

/-- C2: in the signing machine, with an active address and node present:
an HTTP 202 on announcement yields `success` with the computed
cosignature preserved (after having passed through `announcing` with that
cosignature); every announcement failure — among them HTTP 400, 409, any
other non-2xx, timeout, and connectivity failure — yields `error` with
the cosignature still populated; and a cryptography-library rejection
(failed result or rejected promise) yields `error` with cosignature
null. -/
theorem C2_signing_machine_transitions
    (env : SigningEnv) (addr : Address) (node : Node) (params : SignRequestParams)
    (r : SignResult) (c : CosignaturePayload) (m : Option JSString)
    (http : AnnounceHttp) (st : SigningState) (now : Nat) (stxt : JSString)
    (ha : env.activeAddress = some addr) (hn : env.activeNode = some node)
    (hurl : node.url.isEmpty = false)
    (hph : c.parentHash.isEmpty = false) (hsg : c.signature.isEmpty = false)
    (hpk : c.signerPublicKey.isEmpty = false) :
    (r.success = true → r.cosignature = some c →
      (executeSigning env params (SignOutcome.ret r) (AnnounceHttp.response 202 stxt) st now).finalState.status
          = SigningStatus.success
        ∧ (executeSigning env params (SignOutcome.ret r) (AnnounceHttp.response 202 stxt) st now).finalState.cosignature
          = some c
        ∧ ((executeSigning env params (SignOutcome.ret r) (AnnounceHttp.response 202 stxt) st now).trace.get? 1).map
            SigningState.status = some SigningStatus.announcing)
    ∧ (r.success = true → r.cosignature = some c →
        (announceCosignature node.url (some c) http).success = false →
        (executeSigning env params (SignOutcome.ret r) http st now).finalState.status
            = SigningStatus.error
          ∧ (executeSigning env params (SignOutcome.ret r) http st now).finalState.cosignature
            = some c)
    ∧ ((announceCosignature node.url (some c) (AnnounceHttp.response 400 stxt)).success = false
        ∧ (announceCosignature node.url (some c) (AnnounceHttp.response 409 stxt)).success = false
        ∧ (∀ s : Nat, statusOk s = false →
            (announceCosignature node.url (some c) (AnnounceHttp.response s stxt)).success = false)
        ∧ (announceCosignature node.url (some c) AnnounceHttp.timeout).success = false
        ∧ (announceCosignature node.url (some c) AnnounceHttp.networkFailure).success = false)
    ∧ (r.success = false →
        (executeSigning env params (SignOutcome.ret r) http st now).finalState.status
            = SigningStatus.error
          ∧ (executeSigning env params (SignOutcome.ret r) http st now).finalState.cosignature
            = none)
    ∧ ((executeSigning env params (SignOutcome.thrown m) http st now).finalState.status
          = SigningStatus.error
        ∧ (executeSigning env params (SignOutcome.thrown m) http st now).finalState.cosignature
          = none) := by
  obtain ⟨aa, an⟩ := env
  simp only at ha hn
  subst ha
  subst hn
  refine ⟨?_, ?_, ⟨?_, ?_, ?_, ?_, ?_⟩, ?_, ?_⟩
  · intro hr hc
    have h202 : (announceCosignature node.url r.cosignature (AnnounceHttp.response 202 stxt)).success = true := by
      rw [hc]
      simp [announceCosignature, hurl, hph, hsg, hpk, statusOk]
    refine ⟨?_, ?_, ?_⟩ <;>
      simp [executeSigning, hr, hc, h202, announceCosignature, hurl, hph, hsg, hpk, statusOk]
  · intro hr hc hfail
    constructor <;> simp [executeSigning, hr, hc, hfail]
  · simp [announceCosignature, hurl, hph, hsg, hpk, statusOk]
  · simp [announceCosignature, hurl, hph, hsg, hpk, statusOk]
  · intro s hs
    simp only [announceCosignature, hurl, hph, hsg, hpk, Bool.false_eq_true, if_false,
      Bool.or_self, hs]
    split_ifs <;> rfl
  · simp [announceCosignature, hurl, hph, hsg, hpk]
  · simp [announceCosignature, hurl, hph, hsg, hpk]
  · intro hr
    constructor <;> simp [executeSigning, hr]
  · constructor <;> simp [executeSigning]

/-- C2 witness: concrete runs — a 202 announcement succeeds preserving
the cosignature, a 409 announcement fails with the cosignature retained,
and a failed sign result ends in `error` with cosignature null. -/
theorem C2_signing_machine_transitions_witness :
    ((executeSigning ⟨some demoAddress, some demoNode⟩ demoParams
        (SignOutcome.ret { success := true, cosignature := some demoCosignature })
        (AnnounceHttp.response 202 []) initialSigningState 1).finalState.status
        = SigningStatus.success
      ∧ (executeSigning ⟨some demoAddress, some demoNode⟩ demoParams
          (SignOutcome.ret { success := true, cosignature := some demoCosignature })
          (AnnounceHttp.response 202 []) initialSigningState 1).finalState.cosignature
        = some demoCosignature
      ∧ ((executeSigning ⟨some demoAddress, some demoNode⟩ demoParams
          (SignOutcome.ret { success := true, cosignature := some demoCosignature })
          (AnnounceHttp.response 202 []) initialSigningState 1).trace.get? 1).map
          SigningState.status = some SigningStatus.announcing)
    ∧ ((executeSigning ⟨some demoAddress, some demoNode⟩ demoParams
          (SignOutcome.ret { success := true, cosignature := some demoCosignature })
          (AnnounceHttp.response 409 []) initialSigningState 1).finalState.status
        = SigningStatus.error
      ∧ (executeSigning ⟨some demoAddress, some demoNode⟩ demoParams
          (SignOutcome.ret { success := true, cosignature := some demoCosignature })
          (AnnounceHttp.response 409 []) initialSigningState 1).finalState.cosignature
        = some demoCosignature)
    ∧ ((executeSigning ⟨some demoAddress, some demoNode⟩ demoParams
          (SignOutcome.ret { success := false, error := some (jstr "invalid key") })
          (AnnounceHttp.response 202 []) initialSigningState 1).finalState.status
        = SigningStatus.error
      ∧ (executeSigning ⟨some demoAddress, some demoNode⟩ demoParams
          (SignOutcome.ret { success := false, error := some (jstr "invalid key") })
          (AnnounceHttp.response 202 []) initialSigningState 1).finalState.cosignature
        = none) :=
  ⟨(C2_signing_machine_transitions ⟨some demoAddress, some demoNode⟩ demoAddress demoNode
      demoParams { success := true, cosignature := some demoCosignature } demoCosignature
      none (AnnounceHttp.response 202 []) initialSigningState 1 [] rfl rfl
      (by decide) (by decide) (by decide) (by decide)).1 rfl rfl,
    (C2_signing_machine_transitions ⟨some demoAddress, some demoNode⟩ demoAddress demoNode
      demoParams { success := true, cosignature := some demoCosignature } demoCosignature
      none (AnnounceHttp.response 409 []) initialSigningState 1 [] rfl rfl
      (by decide) (by decide) (by decide) (by decide)).2.1 rfl rfl (by decide),
    (C2_signing_machine_transitions ⟨some demoAddress, some demoNode⟩ demoAddress demoNode
      demoParams { success := false, error := some (jstr "invalid key") } demoCosignature
      none (AnnounceHttp.response 202 []) initialSigningState 1 [] rfl rfl
      (by decide) (by decide) (by decide) (by decide)).2.2.2.1 rfl⟩

/-! Address registry operations (store/addresses.ts). -/

/-- Merge of one optional update field over the old value: the spread
`{ ...old, ...params }` keeps the old value when the params field is
absent. -/
def mergeOpt {α : Type} (p old : Option α) : Option α :=
  match p with
  | some v => some v
  | none => old

/-- Parameters of `addAddressAtom` (types/address.ts
`CreateAddressParams`). -/
structure CreateAddressParams where
  address : JSString
  memo : Option JSString := none
  active : Option Bool := none
  deriving Repr, DecidableEq

/-- Parameters of `updateAddressAtom` (types/address.ts
`UpdateAddressParams`). -/
structure UpdateAddressParams where
  address : JSString
  memo : Option JSString := none
  active : Option Bool := none
  publicKey : Option JSString := none
  balance : Option JSString := none
  lastUsedAt : Option JSString := none
  deriving Repr, DecidableEq

/-- Embedding of `addAddressAtom` (store/addresses.ts:113-147): validate,
reject duplicates, deactivate the others when the new record is to be
active, append.  A thrown `Error` is the `Except.error` case. -/
def addAddress (addresses : List Address) (params : CreateAddressParams)
    (now : JSString) : Except JSString (List Address) :=
  let validation := validateSymbolAddress params.address
  match validation.normalizedAddress with
  | none => Except.error (jsOrStr validation.error (jstr "Invalid address"))
  | some normalizedAddress =>
    if validation.isValid = false then
      Except.error (jsOrStr validation.error (jstr "Invalid address"))
    else if addresses.any (fun a => a.address == normalizedAddress) then
      Except.error (jstr "このアドレスは既に登録されています")
    else
      let updatedAddresses :=
        if params.active.getD false then
          addresses.map (fun a => { a with active := false })
        else addresses
      Except.ok (updatedAddresses ++
        [{ address := normalizedAddress, memo := params.memo.getD []
           active := params.active.getD false, createdAt := now }])

/-- The spread `{ ...updatedAddresses[targetIndex], ...params,
lastUsedAt: params.lastUsedAt || now }` of `updateAddressAtom`. -/
def mergeAddressParams (baseTarget : Address) (params : UpdateAddressParams)
    (now : JSString) : Address :=
  { address := params.address
    memo := params.memo.getD baseTarget.memo
    active := params.active.getD baseTarget.active
    createdAt := baseTarget.createdAt
    lastUsedAt := some (jsOrStr params.lastUsedAt now)
    publicKey := mergeOpt params.publicKey baseTarget.publicKey
    balance := mergeOpt params.balance baseTarget.balance }

/-- Embedding of `updateAddressAtom` (store/addresses.ts:152-180):
find by key, deactivate the others when turning the target active, merge
the params over the (possibly deactivated) target, stamp `lastUsedAt`. -/
def updateAddress (addresses : List Address) (params : UpdateAddressParams)
    (now : JSString) : Except JSString (List Address) :=
  match addresses.findIdx? (fun a => a.address == params.address) with
  | none => Except.error (jstr "アドレスが見つかりません")
  | some targetIndex =>
    match addresses.get? targetIndex with
    | none => Except.error (jstr "アドレスが見つかりません")
    | some target =>
      let base :=
        if params.active.getD false = true ∧ target.active = false then
          addresses.map (fun a => { a with active := false })
        else addresses
      match base.get? targetIndex with
      | none => Except.error (jstr "アドレスが見つかりません")
      | some baseTarget =>
        Except.ok (base.set targetIndex (mergeAddressParams baseTarget params now))

/-- Embedding of `removeAddressAtom` (store/addresses.ts:185-200). -/
def removeAddress (addresses : List Address) (targetAddress : JSString) :
    Except JSString (List Address) :=
  let filteredAddresses := addresses.filter (fun a => !(a.address == targetAddress))
  if filteredAddresses.length = addresses.length then
    Except.error (jstr "アドレスが見つかりません")
  else
    Except.ok filteredAddresses

/-- Embedding of `setActiveAddressAtom` (store/addresses.ts:205-230). -/
def setActiveAddress (addresses : List Address) (targetAddress : JSString)
    (now : JSString) : Except JSString (List Address) :=
  if addresses.any (fun a => a.address == targetAddress) = false then
    Except.error (jstr "アドレスが見つかりません")
  else
    Except.ok (addresses.map (fun a =>
      { a with active := a.address == targetAddress
               lastUsedAt := if a.address == targetAddress then some now
                 else a.lastUsedAt }))

/-- One Address Registry operation. -/
inductive AddrOp where
  | add (params : CreateAddressParams) (now : JSString)
  | update (params : UpdateAddressParams) (now : JSString)
  | remove (address : JSString)
  | setActive (address : JSString) (now : JSString)

/-- Applies one operation; a thrown error leaves the stored list
unchanged (the atom is only written on the success paths). -/
def applyAddrOp (addresses : List Address) (op : AddrOp) : List Address :=
  match op with
  | AddrOp.add p now =>
    match addAddress addresses p now with
    | Except.ok l => l
    | Except.error _ => addresses
  | AddrOp.update p now =>
    match updateAddress addresses p now with
    | Except.ok l => l
    | Except.error _ => addresses
  | AddrOp.remove a =>
    match removeAddress addresses a with
    | Except.ok l => l
    | Except.error _ => addresses
  | AddrOp.setActive a now =>
    match setActiveAddress addresses a now with
    | Except.ok l => l
    | Except.error _ => addresses

/-- Runs a sequence of operations from the empty registry. -/
def runAddrOps (ops : List AddrOp) : List Address :=
  ops.foldl applyAddrOp []

/-- Number of records with `active = true`. -/
def countActiveAddresses (addresses : List Address) : Nat :=
  addresses.countP (fun a => a.active)

/-! Node registry infrastructure (node-validation.ts). -/

/-- Parts of a parsed URL used by `validateNodeUrl`. -/
structure UrlParts where
  protocol : JSString
  hostname : JSString
  port : JSString
  deriving Repr, DecidableEq

/-- Numeric value of a digit string. -/
def digitsToNat (l : JSString) : Nat :=
  l.foldl (fun n c => n * 10 + (c.toNat - 48)) 0

/-- Model of the WHATWG `new URL(...)` constructor restricted to the
absolute URL shapes this code base passes around:
`scheme://host[:port][/path...]`.  The scheme and hostname are
lower-cased, the port is kept as a normalized decimal string and dropped
when it is the scheme's default (443 for https, 80 for http); inputs
without a `://`, with an empty host, or with a non-numeric port fail to
parse (the constructor throws). -/
def parseUrl (s : JSString) : Option UrlParts :=
  let scheme := s.takeWhile (fun c => c ≠ ':')
  if scheme.isEmpty then none
  else if !(scheme.all fun c =>
      (65 ≤ c.toNat && c.toNat ≤ 90) || (97 ≤ c.toNat && c.toNat ≤ 122)) then none
  else
    match s.drop scheme.length with
    | ':' :: '/' :: '/' :: rest =>
      let authority := rest.takeWhile (fun c => c ≠ '/')
      let hostPart := authority.takeWhile (fun c => c ≠ ':')
      if hostPart.isEmpty then none
      else
        match authority.drop hostPart.length with
        | [] => some { protocol := jsToLowerCase scheme ++ [':']
                       hostname := jsToLowerCase hostPart, port := [] }
        | ':' :: portDigits =>
          if portDigits.isEmpty then
            some { protocol := jsToLowerCase scheme ++ [':']
                   hostname := jsToLowerCase hostPart, port := [] }
          else if portDigits.all (fun c => 48 ≤ c.toNat && c.toNat ≤ 57) then
            if (jsToLowerCase scheme = jstr "https" ∧ digitsToNat portDigits = 443)
              ∨ (jsToLowerCase scheme = jstr "http" ∧ digitsToNat portDigits = 80) then
              some { protocol := jsToLowerCase scheme ++ [':']
                     hostname := jsToLowerCase hostPart, port := [] }
            else
              some { protocol := jsToLowerCase scheme ++ [':']
                     hostname := jsToLowerCase hostPart
                     port := natToJS (digitsToNat portDigits) }
          else none
        | _ => none
    | _ => none

/-- Result shape of `validateNodeUrl`. -/
structure NodeUrlValidation where
  isValid : Bool
  error : Option JSString := none
  deriving Repr, DecidableEq

/-- Embedding of `validateNodeUrl` (node-validation.ts:13-56). -/
def validateNodeUrl (url : JSString) : NodeUrlValidation :=
  if url.isEmpty then
    { isValid := false, error := some (jstr "URLが指定されていません") }
  else
    match parseUrl url with
    | none => { isValid := false, error := some (jstr "無効なURL形式です") }
    | some parsedUrl =>
      if parsedUrl.protocol ≠ jstr "https:" then
        { isValid := false, error := some (jstr "HTTPSプロトコルを使用してください") }
      else if ¬ parsedUrl.port.isEmpty = true
          ∧ parsedUrl.port ≠ jstr "3000" ∧ parsedUrl.port ≠ jstr "3001" then
        { isValid := false
          error := some (jstr "Symbol REST APIの標準ポート（3000または3001）を使用してください") }
      else if parsedUrl.hostname.isEmpty = true
          ∨ parsedUrl.hostname = jstr "localhost"
          ∨ parsedUrl.hostname = jstr "127.0.0.1" then
        { isValid := false, error := some (jstr "ローカルホストは使用できません") }
      else
        { isValid := true }

/-- Embedding of `validateNetworkType` (node-validation.ts:61-63); over
the closed `NetworkType` it is always true. -/
def validateNetworkType (network : NetworkType) : Bool :=
  decide (network = NetworkType.TESTNET) || decide (network = NetworkType.MAINNET)

/-- String form of a network type. -/
def networkToJS : NetworkType → JSString
  | NetworkType.TESTNET => jstr "TESTNET"
  | NetworkType.MAINNET => jstr "MAINNET"

/-- ASCII alphanumeric class — regex `[a-zA-Z0-9]`. -/
def isAlphanumChar (c : Char) : Bool :=
  (48 ≤ c.toNat && c.toNat ≤ 57) || (65 ≤ c.toNat && c.toNat ≤ 90)
    || (97 ≤ c.toNat && c.toNat ≤ 122)

/-- The 64 characters of the standard Base64 alphabet. -/
def base64Alphabet : List Char :=
  (String.data "ABCDEFGHIJKLMNOPQRSTUVWXYZabcdefghijklmnopqrstuvwxyz0123456789+/")

/-- One Base64 digit. -/
def b64char (n : Nat) : Char := base64Alphabet.getD n 'A'

/-- Model of the `btoa` builtin on Latin-1 text: standard Base64 over the
character codes. -/
def btoa : List Char → List Char
  | a :: b :: c :: rest =>
    b64char (a.toNat / 4)
      :: b64char ((a.toNat % 4) * 16 + b.toNat / 16)
      :: b64char ((b.toNat % 16) * 4 + c.toNat / 64)
      :: b64char (c.toNat % 64)
      :: btoa rest
  | [a, b] =>
    [b64char (a.toNat / 4), b64char ((a.toNat % 4) * 16 + b.toNat / 16),
      b64char ((b.toNat % 16) * 4), '=']
  | [a] =>
    [b64char (a.toNat / 4), b64char ((a.toNat % 4) * 16), '=', '=']
  | [] => []

/-- Shared body of `generateNodeId` (node-validation.ts:68-71):
lower-cased network, a hyphen, and the Base64 of the lower-cased
slash-stripped URL with non-alphanumeric characters removed. -/
def nodeIdCore (url network : JSString) : JSString :=
  jsToLowerCase network ++ ['-']
    ++ (btoa (dropTrailingSlashOnce (jsToLowerCase url))).filter isAlphanumChar

/-- Embedding of `generateNodeId` (node-validation.ts:68-71) as called
with both arguments present. -/
def generateNodeId (url : JSString) (network : NetworkType) : JSString :=
  nodeIdCore url (networkToJS network)

/-- Embedding of `generateNodeId` under JavaScript calling convention:
missing arguments are `undefined`, and the body's `url.toLowerCase()` /
`network.toLowerCase()` throws a `TypeError` when the corresponding
argument is absent. -/
def generateNodeIdJS : Option JSString → Option JSString → Except JSString JSString
  | some u, some n => Except.ok (nodeIdCore u n)
  | _, _ =>
    Except.error (jstr "TypeError: Cannot read properties of undefined (reading 'toLowerCase')")

/-! Node registry operations (store/nodes.ts, concatenated into
store/signing.ts lines 290-777 of the provided sources). -/

/-- Parameters of `addNodeAtom` (types/node.ts `CreateNodeParams`). -/
structure CreateNodeParams where
  url : JSString
  network : NetworkType
  memo : Option JSString := none
  active : Option Bool := none
  deriving Repr, DecidableEq

/-- Parameters of `updateNodeAtom` (types/node.ts `UpdateNodeParams`). -/
structure UpdateNodeParams where
  id : JSString
  url : Option JSString := none
  network : Option NetworkType := none
  memo : Option JSString := none
  active : Option Bool := none
  version : Option JSString := none
  publicKey : Option JSString := none
  networkGenerationHashSeed : Option JSString := none
  networkIdentifier : Option Int := none
  roles : Option Int := none
  port : Option Int := none
  host : Option JSString := none
  friendlyName : Option JSString := none
  status : Option NodeStatus := none
  responseTime : Option Nat := none
  lastUsedAt : Option JSString := none
  lastCheckedAt : Option JSString := none
  lastError : Option JSString := none
  deriving Repr, DecidableEq

/-- Embedding of `addNodeAtom` (store/signing.ts:483-517): validate URL
and network, compute the id from the normalized URL, reject duplicates,
append a node with the requested `active` flag (no peer is
deactivated). -/
def addNode (nodes : List Node) (params : CreateNodeParams) (now : JSString) :
    Except JSString (List Node) :=
  let urlValidation := validateNodeUrl params.url
  if urlValidation.isValid = false then
    Except.error (jsOrStr urlValidation.error (jstr "Invalid URL"))
  else if validateNetworkType params.network = false then
    Except.error (jstr "Invalid network type")
  else
    let normalizedUrl := normalizeNodeUrl params.url
    let nodeId := generateNodeId normalizedUrl params.network
    if nodes.any (fun n => n.id == nodeId) then
      Except.error (jstr "このノードは既に登録されています")
    else
      Except.ok (nodes ++
        [{ id := nodeId, url := normalizedUrl, network := params.network
           active := params.active.getD false, memo := params.memo.getD []
           createdAt := now, status := NodeStatus.unknown }])

/-- The spread `{ ...nodes[nodeIndex], ...params, url: ... }` of
`updateNodeAtom`. -/
def mergeNodeParams (target : Node) (params : UpdateNodeParams) : Node :=
  { id := params.id
    url := match params.url with
      | some u => normalizeNodeUrl u
      | none => target.url
    network := params.network.getD target.network
    active := params.active.getD target.active
    memo := params.memo.getD target.memo
    createdAt := target.createdAt
    lastUsedAt := mergeOpt params.lastUsedAt target.lastUsedAt
    version := mergeOpt params.version target.version
    publicKey := mergeOpt params.publicKey target.publicKey
    networkGenerationHashSeed :=
      mergeOpt params.networkGenerationHashSeed target.networkGenerationHashSeed
    networkIdentifier := mergeOpt params.networkIdentifier target.networkIdentifier
    roles := mergeOpt params.roles target.roles
    port := mergeOpt params.port target.port
    host := mergeOpt params.host target.host
    friendlyName := mergeOpt params.friendlyName target.friendlyName
    status := params.status.getD target.status
    responseTime := mergeOpt params.responseTime target.responseTime
    lastCheckedAt := mergeOpt params.lastCheckedAt target.lastCheckedAt
    lastError := mergeOpt params.lastError target.lastError }

/-- Embedding of `updateNodeAtom` (store/signing.ts:522-557): find by id,
validate url/network when supplied, merge the params over the target (no
peer is deactivated, no timestamp is stamped). -/
def updateNode (nodes : List Node) (params : UpdateNodeParams) :
    Except JSString (List Node) :=
  match nodes.findIdx? (fun n => n.id == params.id) with
  | none => Except.error (jstr "ノードが見つかりません")
  | some nodeIndex =>
    match nodes.get? nodeIndex with
    | none => Except.error (jstr "ノードが見つかりません")
    | some target =>
      match params.url with
      | some u =>
        if (validateNodeUrl u).isValid = false then
          Except.error (jsOrStr (validateNodeUrl u).error (jstr "Invalid URL"))
        else
          match params.network with
          | some net =>
            if validateNetworkType net = false then
              Except.error (jstr "Invalid network type")
            else Except.ok (nodes.set nodeIndex (mergeNodeParams target params))
          | none => Except.ok (nodes.set nodeIndex (mergeNodeParams target params))
      | none =>
        match params.network with
        | some net =>
          if validateNetworkType net = false then
            Except.error (jstr "Invalid network type")
          else Except.ok (nodes.set nodeIndex (mergeNodeParams target params))
        | none => Except.ok (nodes.set nodeIndex (mergeNodeParams target params))

/-- Embedding of `removeNodeAtom` (store/signing.ts:562-577); the
selected-node clearing concerns a UI atom outside this model. -/
def removeNode (nodes : List Node) (nodeId : JSString) :
    Except JSString (List Node) :=
  let filteredNodes := nodes.filter (fun n => !(n.id == nodeId))
  if filteredNodes.length = nodes.length then
    Except.error (jstr "ノードが見つかりません")
  else
    Except.ok filteredNodes

/-- The per-node mapping of `setActiveNodeAtom`: the target becomes
active with a fresh `lastUsedAt`; other nodes of the target's network are
deactivated; nodes of the other network keep their flags. -/
def setActiveNodeUpd (nodeId : JSString) (targetNetwork : NetworkType)
    (now : JSString) (n : Node) : Node :=
  { n with
    active := if n.id == nodeId then true
      else if n.network = targetNetwork then false
      else n.active
    lastUsedAt := if n.id == nodeId then some now else n.lastUsedAt }

/-- Embedding of `setActiveNodeAtom` (store/signing.ts:582-603): on
success it also writes `currentNetworkAtom` with the target's network
(the returned `NetworkType`). -/
def setActiveNode (nodes : List Node) (nodeId : JSString) (now : JSString) :
    Except JSString (List Node × NetworkType) :=
  match nodes.find? (fun n => n.id == nodeId) with
  | none => Except.error (jstr "ノードが見つかりません")
  | some targetNode =>
    Except.ok (nodes.map (setActiveNodeUpd nodeId targetNode.network now),
      targetNode.network)

/-- One Node Registry operation. -/
inductive NodeOp where
  | add (params : CreateNodeParams) (now : JSString)
  | update (params : UpdateNodeParams)
  | remove (nodeId : JSString)
  | setActive (nodeId : JSString) (now : JSString)

/-- Applies one operation to (node list, persisted current network); a
thrown error leaves both unchanged. -/
def applyNodeOp (state : List Node × NetworkType) (op : NodeOp) :
    List Node × NetworkType :=
  match op with
  | NodeOp.add p now =>
    match addNode state.1 p now with
    | Except.ok l => (l, state.2)
    | Except.error _ => state
  | NodeOp.update p =>
    match updateNode state.1 p with
    | Except.ok l => (l, state.2)
    | Except.error _ => state
  | NodeOp.remove nodeId =>
    match removeNode state.1 nodeId with
    | Except.ok l => (l, state.2)
    | Except.error _ => state
  | NodeOp.setActive nodeId now =>
    match setActiveNode state.1 nodeId now with
    | Except.ok ln => ln
    | Except.error _ => state

/-- Runs a sequence of operations from the empty registry with the
persisted default network (`TESTNET`). -/
def runNodeOps (ops : List NodeOp) : List Node × NetworkType :=
  ops.foldl applyNodeOp ([], NetworkType.TESTNET)

/-- Number of records of the given network with `active = true`. -/
def countActiveInNetwork (nodes : List Node) (network : NetworkType) : Nat :=
  nodes.countP (fun n => n.active && decide (n.network = network))

/-! Counting and uniqueness helper lemmas. -/

theorem countP_set_eq {α : Type} (p : α → Bool) :
    ∀ (l : List α) (i : Nat) (a b : α), l.get? i = some b →
      (l.set i a).countP p + (if p b then 1 else 0)
        = l.countP p + (if p a then 1 else 0) := by
  intro l
  induction l with
  | nil => intro i a b h; exact absurd h (by simp)
  | cons x xs ih =>
    intro i a b h
    cases i with
    | zero =>
      obtain rfl : x = b := by simpa using h
      rw [List.set_cons_zero, List.countP_cons, List.countP_cons]
      by_cases hpa : p a <;> by_cases hpx : p x <;> simp [hpa, hpx] <;> omega
    | succ i =>
      have h' : xs.get? i = some b := by simpa using h
      rw [List.set_cons_succ, List.countP_cons, List.countP_cons]
      have := ih i a b h'
      omega

theorem set_get?_self {α : Type} :
    ∀ (l : List α) (i : Nat) (b : α), l.get? i = some b → l.set i b = l := by
  intro l
  induction l with
  | nil => intro i b h; exact absurd h (by simp)
  | cons x xs ih =>
    intro i b h
    cases i with
    | zero =>
      obtain rfl : x = b := by simpa using h
      rfl
    | succ i =>
      have h' : xs.get? i = some b := by simpa using h
      rw [List.set_cons_succ, ih i b h']

theorem countP_key_le_one {α : Type} (g : α → JSString) (t : JSString) :
    ∀ l : List α, (l.map g).Nodup → l.countP (fun a => g a == t) ≤ 1 := by
  intro l
  induction l with
  | nil => intro; simp [List.countP_nil]
  | cons x xs ih =>
    intro h
    rw [List.map_cons, List.nodup_cons] at h
    rw [List.countP_cons]
    by_cases hx : g x = t
    · have hz : xs.countP (fun a => g a == t) = 0 := by
        rw [List.countP_eq_zero]
        intro a ha hbad
        rw [beq_iff_eq] at hbad
        exact h.1 (List.mem_map.mpr ⟨a, ha, by rw [hbad, hx]⟩)
      simp [hz, hx]
    · have h2 := ih h.2
      simp only [beq_iff_eq, hx]
      simpa using h2

/-! Address Registry invariant preservation. -/

/-- Well-formedness maintained by the Address Registry operations:
unique keys, and at most one record with `active = true`. -/
def AddrWF (addresses : List Address) : Prop :=
  (addresses.map (fun a => a.address)).Nodup
    ∧ addresses.countP (fun a => a.active) ≤ 1

theorem addrWF_nil : AddrWF [] := ⟨List.nodup_nil, by simp⟩

theorem countP_active_deactivate (l : List Address) :
    (l.map (fun a => { a with active := false })).countP (fun a => a.active) = 0 := by
  rw [List.countP_map, List.countP_eq_zero]
  intro a _
  simp [Function.comp]

theorem map_address_deactivate (l : List Address) :
    (l.map (fun a => { a with active := false })).map (fun a => a.address)
      = l.map (fun a => a.address) := by
  rw [List.map_map]
  rfl

theorem addAddress_ok_wf {l l' : List Address} {p : CreateAddressParams}
    {now : JSString} (h : addAddress l p now = Except.ok l') (hwf : AddrWF l) :
    AddrWF l' := by
  simp only [addAddress] at h
  split at h
  · exact absurd h (by simp)
  · split at h
    · exact absurd h (by simp)
    · split at h
      · exact absurd h (by simp)
      · rename_i normalized heq hvalid hdup
        rw [Except.ok.injEq] at h
        subst h
        have hmem : normalized ∉ l.map (fun a => a.address) := by
          intro hm
          obtain ⟨a, ha, haeq⟩ := List.mem_map.mp hm
          apply hdup
          rw [List.any_eq_true]
          exact ⟨a, ha, by rw [beq_iff_eq, haeq]⟩
        constructor
        · by_cases hact : p.active.getD false = true
          · simp only [hact, if_true, List.map_append, List.map_cons, List.map_nil,
              map_address_deactivate]
            rw [List.nodup_middle]
            simp only [List.append_nil]
            exact List.nodup_cons.mpr ⟨hmem, hwf.1⟩
          · simp only [hact, if_false, List.map_append, List.map_cons, List.map_nil]
            rw [List.nodup_middle]
            simp only [List.append_nil]
            exact List.nodup_cons.mpr ⟨hmem, hwf.1⟩
        · rw [List.countP_append]
          by_cases hact : p.active.getD false = true
          · rw [if_pos hact, countP_active_deactivate]
            simp [List.countP_cons, hact]
          · rw [if_neg hact]
            have h2 := hwf.2
            have hinact : p.active.getD false = false := by
              cases hq : p.active.getD false
              · rfl
              · exact absurd hq hact
            have hnew : List.countP (fun a => a.active)
                ([{ address := normalized, memo := p.memo.getD [],
                    active := p.active.getD false, createdAt := now }] : List Address) = 0 := by
              simp [List.countP_cons, hinact]
            omega

theorem removeAddress_ok_wf {l l' : List Address} {t : JSString}
    (h : removeAddress l t = Except.ok l') (hwf : AddrWF l) : AddrWF l' := by
  simp only [removeAddress] at h
  split at h
  · exact absurd h (by simp)
  · rw [Except.ok.injEq] at h
    subst h
    have hsub : List.Sublist (l.filter (fun a => !(a.address == t))) l :=
      List.filter_sublist l
    exact ⟨hwf.1.sublist (hsub.map _), le_trans (hsub.countP_le _) hwf.2⟩

theorem setActiveAddress_ok_wf {l l' : List Address} {t now : JSString}
    (h : setActiveAddress l t now = Except.ok l') (hwf : AddrWF l) : AddrWF l' := by
  simp only [setActiveAddress] at h
  split at h
  · exact absurd h (by simp)
  · rw [Except.ok.injEq] at h
    subst h
    constructor
    · rw [List.map_map]
      exact hwf.1
    · rw [List.countP_map]
      exact countP_key_le_one (fun a => a.address) t l hwf.1

theorem updateAddress_ok_wf {l l' : List Address} {p : UpdateAddressParams}
    {now : JSString} (h : updateAddress l p now = Except.ok l') (hwf : AddrWF l) :
    AddrWF l' := by
  simp only [updateAddress] at h
  split at h
  · exact absurd h (by simp)
  · rename_i targetIndex hIdx
    split at h
    · exact absurd h (by simp)
    · rename_i target hGet
      split at h
      · exact absurd h (by simp)
      · rename_i baseTarget hBase
        rw [Except.ok.injEq] at h
        subst h
        have htaddr : target.address = p.address := by
          obtain ⟨hlt, hp, _⟩ := List.findIdx?_eq_some_iff_getElem.mp hIdx
          have hg : l.get? targetIndex = some l[targetIndex] := by
            simp [List.get?_eq_getElem?, List.getElem?_eq_getElem hlt]
          rw [hg] at hGet
          obtain rfl : l[targetIndex] = target := by simpa using hGet
          exact beq_iff_eq.mp hp
        by_cases hact : p.active.getD false = true ∧ target.active = false
        · rw [if_pos hact] at hBase ⊢
          have hbt : baseTarget = { target with active := false } := by
            rw [List.get?_map, hGet] at hBase
            simpa using hBase.symm
          have hsome : p.active = some true := by
            rcases hq : p.active with _ | b
            · rw [hq] at hact; simp at hact
            · cases b
              · rw [hq] at hact; simp at hact
              · rfl
          constructor
          · have haddr : (l.map (fun a => a.address)).get? targetIndex
                = some ((mergeAddressParams baseTarget p now).address) := by
              rw [List.get?_map, hGet]
              simp [mergeAddressParams, htaddr]
            rw [List.map_set, map_address_deactivate, set_get?_self _ _ _ haddr]
            exact hwf.1
          · have hcount := countP_set_eq (fun a => a.active) _ targetIndex
              (mergeAddressParams baseTarget p now) baseTarget hBase
            rw [countP_active_deactivate] at hcount
            have hb0 : baseTarget.active = false := by rw [hbt]
            have hm1 : (mergeAddressParams baseTarget p now).active = true := by
              simp [mergeAddressParams, hsome]
            simp only [hb0, hm1] at hcount
            simp at hcount
            omega
        · rw [if_neg hact] at hBase ⊢
          rw [hGet] at hBase
          obtain rfl : target = baseTarget := by simpa using hBase
          constructor
          · have haddr : (l.map (fun a => a.address)).get? targetIndex
                = some ((mergeAddressParams target p now).address) := by
              rw [List.get?_map, hGet]
              simp [mergeAddressParams, htaddr]
            rw [List.map_set, set_get?_self _ _ _ haddr]
            exact hwf.1
          · have hcount := countP_set_eq (fun a => a.active) l targetIndex
              (mergeAddressParams target p now) target hGet
            have h2 := hwf.2
            rcases hq : p.active with _ | b
            · have hmt : (mergeAddressParams target p now).active = target.active := by
                simp [mergeAddressParams, hq]
              simp only [hmt] at hcount
              omega
            · cases b
              · have hmt : (mergeAddressParams target p now).active = false := by
                  simp [mergeAddressParams, hq]
                simp only [hmt] at hcount
                simp at hcount
                omega
              · have htT : target.active = true := by
                  by_contra hbad
                  exact hact ⟨by rw [hq]; rfl, by revert hbad; cases target.active <;> simp⟩
                have hmt : (mergeAddressParams target p now).active = true := by
                  simp [mergeAddressParams, hq]
                simp only [hmt, htT] at hcount
                omega


theorem addrWF_apply (l : List Address) (op : AddrOp) (hwf : AddrWF l) :
    AddrWF (applyAddrOp l op) := by
  cases op with
  | add p now =>
    cases h : addAddress l p now with
    | ok l' => simpa [applyAddrOp, h] using addAddress_ok_wf h hwf
    | error e => simpa [applyAddrOp, h] using hwf
  | update p now =>
    cases h : updateAddress l p now with
    | ok l' => simpa [applyAddrOp, h] using updateAddress_ok_wf h hwf
    | error e => simpa [applyAddrOp, h] using hwf
  | remove a =>
    cases h : removeAddress l a with
    | ok l' => simpa [applyAddrOp, h] using removeAddress_ok_wf h hwf
    | error e => simpa [applyAddrOp, h] using hwf
  | setActive a now =>
    cases h : setActiveAddress l a now with
    | ok l' => simpa [applyAddrOp, h] using setActiveAddress_ok_wf h hwf
    | error e => simpa [applyAddrOp, h] using hwf

theorem addrWF_run (ops : List AddrOp) : AddrWF (runAddrOps ops) := by
  have hfold : ∀ (os : List AddrOp) (l : List Address), AddrWF l →
      AddrWF (os.foldl applyAddrOp l) := by
    intro os
    induction os with
    | nil => intro l h; exact h
    | cons op os ih =>
      intro l h
      exact ih _ (addrWF_apply l op h)
  exact hfold ops [] addrWF_nil

/-! Node Registry invariant preservation. -/

/-- Well-formedness maintained by the Node Registry operations: unique
ids, and per network at most one record with `active = true`. -/
def NodeWF (nodes : List Node) : Prop :=
  (nodes.map (fun n => n.id)).Nodup
    ∧ ∀ net : NetworkType, countActiveInNetwork nodes net ≤ 1

theorem nodeWF_nil : NodeWF [] :=
  ⟨List.nodup_nil, fun _ => by simp [countActiveInNetwork]⟩

/-- Operations that do not exercise the gap: `addNode` / `updateNode`
never asked to force `active = true`, and `updateNode` never asked to
move a node across networks. -/
def safeNodeOp : NodeOp → Prop
  | NodeOp.add p _ => p.active ≠ some true
  | NodeOp.update p => p.active ≠ some true ∧ p.network = none
  | NodeOp.remove _ => True
  | NodeOp.setActive _ _ => True

theorem addNode_ok_wf {l l' : List Node} {p : CreateNodeParams} {now : JSString}
    (h : addNode l p now = Except.ok l') (hsafe : p.active ≠ some true)
    (hwf : NodeWF l) : NodeWF l' := by
  simp only [addNode] at h
  split at h
  · exact absurd h (by simp)
  · split at h
    · exact absurd h (by simp)
    · split at h
      · exact absurd h (by simp)
      · rename_i hurl hnet hdup
        rw [Except.ok.injEq] at h
        subst h
        have hinact : p.active.getD false = false := by
          rcases hq : p.active with _ | b
          · rfl
          · cases b
            · rfl
            · exact absurd hq hsafe
        have hmem : generateNodeId (normalizeNodeUrl p.url) p.network
            ∉ l.map (fun n => n.id) := by
          intro hm
          obtain ⟨n, hn, hneq⟩ := List.mem_map.mp hm
          apply hdup
          rw [List.any_eq_true]
          exact ⟨n, hn, by rw [beq_iff_eq, hneq]⟩
        constructor
        · simp only [List.map_append, List.map_cons, List.map_nil]
          rw [List.nodup_middle]
          simp only [List.append_nil]
          exact List.nodup_cons.mpr ⟨hmem, hwf.1⟩
        · intro net
          rw [countActiveInNetwork, List.countP_append]
          have h2 := hwf.2 net
          rw [countActiveInNetwork] at h2
          have hnew : List.countP (fun n => n.active && decide (n.network = net))
              ([{ id := generateNodeId (normalizeNodeUrl p.url) p.network,
                  url := normalizeNodeUrl p.url, network := p.network,
                  active := p.active.getD false, memo := p.memo.getD [],
                  createdAt := now, status := NodeStatus.unknown }] : List Node) = 0 := by
            simp [List.countP_cons, hinact]
          omega

theorem removeNode_ok_wf {l l' : List Node} {nodeId : JSString}
    (h : removeNode l nodeId = Except.ok l') (hwf : NodeWF l) : NodeWF l' := by
  simp only [removeNode] at h
  split at h
  · exact absurd h (by simp)
  · rw [Except.ok.injEq] at h
    subst h
    have hsub : List.Sublist (l.filter (fun n => !(n.id == nodeId))) l :=
      List.filter_sublist l
    exact ⟨hwf.1.sublist (hsub.map _),
      fun net => le_trans (hsub.countP_le _) (hwf.2 net)⟩

theorem updateNode_ok_wf {l l' : List Node} {p : UpdateNodeParams}
    (h : updateNode l p = Except.ok l') (hsafe : p.active ≠ some true)
    (hnonet : p.network = none) (hwf : NodeWF l) : NodeWF l' := by
  have hmain : ∀ (nodeIndex : Nat) (target : Node),
      l.findIdx? (fun n => n.id == p.id) = some nodeIndex →
      l.get? nodeIndex = some target →
      NodeWF (l.set nodeIndex (mergeNodeParams target p)) := by
    intro nodeIndex target hIdx hGet
    have htid : target.id = p.id := by
      obtain ⟨hlt, hp, _⟩ := List.findIdx?_eq_some_iff_getElem.mp hIdx
      have hg : l.get? nodeIndex = some l[nodeIndex] := by
        simp [List.get?_eq_getElem?, List.getElem?_eq_getElem hlt]
      rw [hg] at hGet
      obtain rfl : l[nodeIndex] = target := by simpa using hGet
      exact beq_iff_eq.mp hp
    constructor
    · have hid : (l.map (fun n => n.id)).get? nodeIndex
          = some ((mergeNodeParams target p).id) := by
        rw [List.get?_map, hGet]
        simp [mergeNodeParams, htid]
      rw [List.map_set, set_get?_self _ _ _ hid]
      exact hwf.1
    · intro net
      have hcount := countP_set_eq (fun n => n.active && decide (n.network = net))
        l nodeIndex (mergeNodeParams target p) target hGet
      have h2 := hwf.2 net
      rw [countActiveInNetwork] at h2 ⊢
      have hnetm : (mergeNodeParams target p).network = target.network := by
        simp [mergeNodeParams, hnonet]
      rcases hq : p.active with _ | b
      · have hm : (mergeNodeParams target p).active = target.active := by
          simp [mergeNodeParams, hq]
        simp only [hm, hnetm] at hcount
        omega
      · cases b
        · have hm : (mergeNodeParams target p).active = false := by
            simp [mergeNodeParams, hq]
          simp only [hm, hnetm, Bool.false_and] at hcount
          simp at hcount
          omega
        · exact absurd hq hsafe
  simp only [updateNode] at h
  split at h
  · exact absurd h (by simp)
  · rename_i nodeIndex hIdx
    split at h
    · exact absurd h (by simp)
    · rename_i target hGet
      rw [hnonet] at h
      split at h
      · rename_i u hu
        split at h
        · exact absurd h (by simp)
        · rw [Except.ok.injEq] at h
          subst h
          exact hmain nodeIndex target hIdx hGet
      · rw [Except.ok.injEq] at h
        subst h
        exact hmain nodeIndex target hIdx hGet

theorem setActiveNode_ok_wf {l l' : List Node} {nodeId now : JSString}
    {net' : NetworkType} (h : setActiveNode l nodeId now = Except.ok (l', net'))
    (hwf : NodeWF l) : NodeWF l' := by
  simp only [setActiveNode] at h
  split at h
  · exact absurd h (by simp)
  · rename_i targetNode hFind
    rw [Except.ok.injEq, Prod.mk.injEq] at h
    obtain ⟨h1, h2⟩ := h
    subst h1
    have htmem : targetNode ∈ l := List.mem_of_find?_eq_some hFind
    have htid : (targetNode.id == nodeId) = true := by
      have h3 := List.find?_some hFind
      simpa using h3
    constructor
    · have hc : (fun n => n.id) ∘ setActiveNodeUpd nodeId targetNode.network now
          = fun n : Node => n.id := rfl
      rw [List.map_map, hc]
      exact hwf.1
    · intro net
      rw [countActiveInNetwork, List.countP_map]
      by_cases hnet : net = targetNode.network
      · subst hnet
        refine le_trans (List.countP_mono_left (q := fun n => n.id == nodeId) ?_)
          (countP_key_le_one (fun n => n.id) nodeId l hwf.1)
        intro n _ hq
        simp only [Function.comp, setActiveNodeUpd] at hq
        by_cases hid : (n.id == nodeId) = true
        · exact hid
        · rw [Bool.and_eq_true, decide_eq_true_eq] at hq
          rw [if_neg hid] at hq
          rw [if_pos hq.2] at hq
          exact absurd hq.1 (by simp)
      · have hcongr : List.countP
            ((fun n => n.active && decide (n.network = net))
              ∘ setActiveNodeUpd nodeId targetNode.network now) l
            = List.countP (fun n => n.active && decide (n.network = net)) l := by
          apply List.countP_congr
          intro n hn
          simp only [Function.comp, setActiveNodeUpd]
          by_cases hid : (n.id == nodeId) = true
          · have heqt : n = targetNode :=
              List.inj_on_of_nodup_map hwf.1 hn htmem
                (by rw [beq_iff_eq.mp hid, beq_iff_eq.mp htid])
            subst heqt
            rw [if_pos hid]
            have hd : decide (n.network = net) = false := by
              simp
              intro hbad
              exact hnet hbad.symm
            simp [hd]
          · rw [if_neg hid]
            by_cases hsame : n.network = targetNode.network
            · rw [if_pos hsame]
              have hd : decide (n.network = net) = false := by
                simp [hsame]
                intro hbad
                exact hnet hbad.symm
              simp [hd]
            · rw [if_neg hsame]
        rw [hcongr]
        have h2 := hwf.2 net
        rw [countActiveInNetwork] at h2
        exact h2

theorem nodeWF_apply (st : List Node × NetworkType) (op : NodeOp)
    (hsafe : safeNodeOp op) (hwf : NodeWF st.1) : NodeWF (applyNodeOp st op).1 := by
  cases op with
  | add p now =>
    cases h : addNode st.1 p now with
    | ok l' => simpa [applyNodeOp, h] using addNode_ok_wf h hsafe hwf
    | error e => simpa [applyNodeOp, h] using hwf
  | update p =>
    cases h : updateNode st.1 p with
    | ok l' => simpa [applyNodeOp, h] using updateNode_ok_wf h hsafe.1 hsafe.2 hwf
    | error e => simpa [applyNodeOp, h] using hwf
  | remove nodeId =>
    cases h : removeNode st.1 nodeId with
    | ok l' => simpa [applyNodeOp, h] using removeNode_ok_wf h hwf
    | error e => simpa [applyNodeOp, h] using hwf
  | setActive nodeId now =>
    cases h : setActiveNode st.1 nodeId now with
    | ok ln =>
      have hok : setActiveNode st.1 nodeId now = Except.ok (ln.1, ln.2) := by
        rw [h]
      have hwf' := setActiveNode_ok_wf hok hwf
      simpa [applyNodeOp, h] using hwf'
    | error e => simpa [applyNodeOp, h] using hwf

theorem nodeWF_run (nops : List NodeOp) (hsafe : ∀ op ∈ nops, safeNodeOp op) :
    NodeWF (runNodeOps nops).1 := by
  have hfold : ∀ (os : List NodeOp) (st : List Node × NetworkType),
      (∀ op ∈ os, safeNodeOp op) → NodeWF st.1 →
      NodeWF (os.foldl applyNodeOp st).1 := by
    intro os
    induction os with
    | nil => intro st _ h; exact h
    | cons op os ih =>
      intro st hs h
      exact ih _ (fun o ho => hs o (List.mem_cons_of_mem op ho))
        (nodeWF_apply st op (hs op (List.mem_cons_self op os)) h)
  exact hfold nops ([], NetworkType.TESTNET) hsafe nodeWF_nil

/-- C3 counterexample: two addNode operations with `active = true` on the
same network, starting from the empty registries, leave the Node Registry
with TWO active TESTNET records — `addNodeAtom` never deactivates peers,
so the claimed per-network at-most-one-active invariant fails. -/
theorem C3_counterexample_two_active_nodes :
    countActiveInNetwork
      (runNodeOps
        [NodeOp.add { url := jstr "https://a.example.com:3001", network := NetworkType.TESTNET, active := some true } (jstr "t"),
         NodeOp.add { url := jstr "https://b.example.com:3001", network := NetworkType.TESTNET, active := some true } (jstr "t")]).1
      NetworkType.TESTNET = 2 := by decide

/-- C3 (amended): after any sequence of operations from the empty
registries, the Address Registry holds at most one active record; the
Node Registry holds at most one active record per network for every
sequence in which addNode/updateNode are never told to set
`active = true` and updateNode never moves a node across networks —
addNode appends the requested flag without deactivating peers, so an add
with `active = true` can create a second active node in a network. -/
theorem C3_at_most_one_active (ops : List AddrOp) (nops : List NodeOp) :
    countActiveAddresses (runAddrOps ops) ≤ 1
    ∧ ((∀ op ∈ nops, safeNodeOp op) →
        ∀ net : NetworkType, countActiveInNetwork (runNodeOps nops).1 net ≤ 1) :=
  ⟨(addrWF_run ops).2, fun hsafe net => (nodeWF_run nops hsafe).2 net⟩

/-- C3 witness: a concrete run — one address added active, one node
added inactive and then activated through setActiveNode — keeps both
invariants. -/
theorem C3_at_most_one_active_witness :
    countActiveAddresses (runAddrOps
      [AddrOp.add { address := jstr "tcifsm-qzax3i-dphup2-rtxp26-n6bjrn-kebbkp-33i", active := some true } (jstr "t")]) ≤ 1
    ∧ ∀ net : NetworkType,
        countActiveInNetwork
          (runNodeOps
            [NodeOp.add { url := jstr "https://a.example.com:3001", network := NetworkType.TESTNET, active := some false } (jstr "t"),
             NodeOp.setActive (generateNodeId (normalizeNodeUrl (jstr "https://a.example.com:3001")) NetworkType.TESTNET) (jstr "t")]).1
          net ≤ 1 :=
  ⟨(C3_at_most_one_active
      [AddrOp.add { address := jstr "tcifsm-qzax3i-dphup2-rtxp26-n6bjrn-kebbkp-33i", active := some true } (jstr "t")]
      [NodeOp.add { url := jstr "https://a.example.com:3001", network := NetworkType.TESTNET, active := some false } (jstr "t"),
       NodeOp.setActive (generateNodeId (normalizeNodeUrl (jstr "https://a.example.com:3001")) NetworkType.TESTNET) (jstr "t")]).1,
    (C3_at_most_one_active
      [AddrOp.add { address := jstr "tcifsm-qzax3i-dphup2-rtxp26-n6bjrn-kebbkp-33i", active := some true } (jstr "t")]
      [NodeOp.add { url := jstr "https://a.example.com:3001", network := NetworkType.TESTNET, active := some false } (jstr "t"),
       NodeOp.setActive (generateNodeId (normalizeNodeUrl (jstr "https://a.example.com:3001")) NetworkType.TESTNET) (jstr "t")]).2
      (by
        intro op hop
        rcases List.mem_cons.mp hop with rfl | hop2
        · exact (by decide : (some false : Option Bool) ≠ some true)
        · rcases List.mem_cons.mp hop2 with rfl | hop3
          · exact trivial
          · cases hop3)⟩

/-- C10: setActiveNode on a nodeId present in a registry with unique ids
activates the target and stamps its lastUsedAt, deactivates the other
nodes of the target's network, leaves every node of the other network
(active flag and all other fields) unchanged, and switches the persisted
current-network selection to the target's network. -/
theorem C10_set_active_node_switches_network
    (nodes : List Node) (cn : NetworkType) (nodeId now : JSString) (target : Node)
    (hfind : nodes.find? (fun n => n.id == nodeId) = some target)
    (hnodup : (nodes.map (fun n => n.id)).Nodup) :
    applyNodeOp (nodes, cn) (NodeOp.setActive nodeId now)
        = (nodes.map (setActiveNodeUpd nodeId target.network now), target.network)
    ∧ (∀ n ∈ nodes, n.network ≠ target.network →
        setActiveNodeUpd nodeId target.network now n = n)
    ∧ setActiveNodeUpd nodeId target.network now target
        = { target with active := true, lastUsedAt := some now }
    ∧ (∀ n ∈ nodes, n.network = target.network → n.id ≠ nodeId →
        setActiveNodeUpd nodeId target.network now n = { n with active := false }) := by
  have htid : (target.id == nodeId) = true := by
    have h3 := List.find?_some hfind
    simpa using h3
  have htmem : target ∈ nodes := List.mem_of_find?_eq_some hfind
  refine ⟨?_, ?_, ?_, ?_⟩
  · simp [applyNodeOp, setActiveNode, hfind]
  · intro n hn hne
    have hid : (n.id == nodeId) = false := by
      by_cases hb : (n.id == nodeId) = true
      · have heqt : n = target :=
          List.inj_on_of_nodup_map hnodup hn htmem
            (by rw [beq_iff_eq.mp hb, beq_iff_eq.mp htid])
        exact absurd (by rw [heqt]) hne
      · simpa using hb
    simp [setActiveNodeUpd, hid, hne]
  · simp [setActiveNodeUpd, htid]
  · intro n hn hsame hnid
    have hid : (n.id == nodeId) = false := by
      rw [beq_eq_false_iff_ne]
      exact hnid
    simp [setActiveNodeUpd, hid, hsame]

/-- A concrete TESTNET node for the C10 witness. -/
def witNodeA : Node :=
  { id := jstr "ida", url := jstr "https://a.example.com:3001"
    network := NetworkType.TESTNET, active := false, memo := []
    createdAt := jstr "t0", status := NodeStatus.unknown }

/-- A concrete MAINNET node for the C10 witness. -/
def witNodeB : Node :=
  { id := jstr "idb", url := jstr "https://b.example.com:3001"
    network := NetworkType.MAINNET, active := true, memo := []
    createdAt := jstr "t0", status := NodeStatus.online }

/-- C10 witness: activating the TESTNET node of a two-network registry
switches the persisted network to TESTNET while the MAINNET node is
untouched. -/
theorem C10_set_active_node_switches_network_witness :
    applyNodeOp ([witNodeA, witNodeB], NetworkType.MAINNET)
        (NodeOp.setActive (jstr "ida") (jstr "t1"))
      = ([witNodeA, witNodeB].map
          (setActiveNodeUpd (jstr "ida") witNodeA.network (jstr "t1")),
        witNodeA.network)
    ∧ (∀ n ∈ [witNodeA, witNodeB], n.network ≠ witNodeA.network →
        setActiveNodeUpd (jstr "ida") witNodeA.network (jstr "t1") n = n)
    ∧ setActiveNodeUpd (jstr "ida") witNodeA.network (jstr "t1") witNodeA
        = { witNodeA with active := true, lastUsedAt := some (jstr "t1") }
    ∧ (∀ n ∈ [witNodeA, witNodeB], n.network = witNodeA.network →
        n.id ≠ jstr "ida" →
        setActiveNodeUpd (jstr "ida") witNodeA.network (jstr "t1") n
          = { n with active := false }) :=
  C10_set_active_node_switches_network [witNodeA, witNodeB] NetworkType.MAINNET
    (jstr "ida") (jstr "t1") witNodeA (by decide) (by decide)

/-! Preset node bootstrap (utils/preset-nodes.ts, provided inside
hooks/useMemoEditor.ts lines 79-236, and store/signing.ts lines
731-756). -/

/-- Model of `replace(regex, "")` for the leading-affix regex of
`createPresetNode`: removes one of the prefixes sym-, symbol-, node-. -/
def dropLeadingAffix (h : JSString) : JSString :=
  if (jstr "sym-").isPrefixOf h then h.drop 4
  else if (jstr "symbol-").isPrefixOf h then h.drop 7
  else if (jstr "node-").isPrefixOf h then h.drop 5
  else h

/-- Model of `replace(regex, "")` for the trailing-TLD regex of
`createPresetNode`: removes one of the endings .jp, .net, .com, .xyz. -/
def dropTrailingTld (h : JSString) : JSString :=
  if (jstr ".jp").isSuffixOf h then h.take (h.length - 3)
  else if (jstr ".net").isSuffixOf h then h.take (h.length - 4)
  else if (jstr ".com").isSuffixOf h then h.take (h.length - 4)
  else if (jstr ".xyz").isSuffixOf h then h.take (h.length - 4)
  else h

/-- Embedding of `createPresetNode` (preset-nodes.ts):
`generateNodeId()` is invoked WITHOUT arguments even though the imported
function requires (url, network), so `url.toLowerCase()` inside it throws
a `TypeError` before the node object is ever built. -/
def createPresetNode (url : JSString) (network : NetworkType) (index : Nat)
    (now : JSString) : Except JSString Node :=
  let normalizedUrl := normalizeNodeUrl url
  match generateNodeIdJS none none with
  | Except.error e => Except.error e
  | Except.ok nodeId =>
    match parseUrl url with
    | none => Except.error (jstr "TypeError: Invalid URL")
    | some parts =>
      let friendlyName := dropTrailingTld (dropLeadingAffix parts.hostname)
      Except.ok
        { id := nodeId, url := normalizedUrl, network := network
          active := decide (index = 0)
          memo := jstr "プリセット" ++ networkToJS network ++ jstr "ノード: " ++ friendlyName
          createdAt := now, status := NodeStatus.unknown
          friendlyName := some friendlyName }

/-- The fixed TESTNET preset endpoints (preset-nodes.ts `presetServers`). -/
def presetTestnetUrls : List JSString :=
  [jstr "https://sym-test-01.opening-line.jp:3001",
   jstr "https://sym-test-03.opening-line.jp:3001",
   jstr "https://symbol-azure.0009.co:3001",
   jstr "https://201-sai-dual.symboltest.net:3001",
   jstr "https://node-t.sixis.xyz:3001",
   jstr "https://vmi831828.contaboserver.net:3001"]

/-- The fixed MAINNET preset endpoints (preset-nodes.ts `presetServers`). -/
def presetMainnetUrls : List JSString :=
  [jstr "https://sym-main-01.opening-line.jp:3001",
   jstr "https://sym-main-02.opening-line.jp:3001",
   jstr "https://sym-main-03.opening-line.jp:3001",
   jstr "https://pasomi.net:3001",
   jstr "https://sakia.harvestasya.com:3001",
   jstr "https://shoestring.pasomi.net:3001"]

/-- One forEach loop of `getPresetNodes`: each URL is turned into a node,
and a creation failure is caught and skipped (console.warn). -/
def collectPresetNodes (urls : List JSString) (network : NetworkType)
    (now : JSString) : List Node :=
  urls.enum.filterMap (fun p => (createPresetNode p.2 network p.1 now).toOption)

/-- Embedding of `getPresetNodes` (preset-nodes.ts:149-173). -/
def getPresetNodes (now : JSString) : List Node :=
  collectPresetNodes presetTestnetUrls NetworkType.TESTNET now
    ++ collectPresetNodes presetMainnetUrls NetworkType.MAINNET now

/-- Embedding of `shouldInitializePresetNodes` (preset-nodes.ts:186-198). -/
def shouldInitializePresetNodes (existingNodes : List Node) (now : JSString) :
    Bool :=
  if existingNodes.isEmpty then true
  else
    let presetNodes := getPresetNodes now
    let existingPresetNodes := existingNodes.filter
      (fun node => presetNodes.any (fun preset => preset.id == node.id))
    existingPresetNodes.length == 0

/-- Embedding of `initializePresetNodesAtom` (store/signing.ts:736-756):
when initialization is deemed necessary the stored node list is REPLACED
by the preset list, and the current network is switched to TESTNET when
an active TESTNET preset exists. -/
def initializePresetNodes (nodes : List Node) (currentNetwork : NetworkType)
    (now : JSString) : List Node × NetworkType :=
  if shouldInitializePresetNodes nodes now then
    let presetNodes := getPresetNodes now
    let testnetActiveNode := presetNodes.find?
      (fun node => decide (node.network = NetworkType.TESTNET) && node.active)
    (presetNodes,
      if testnetActiveNode.isSome then NetworkType.TESTNET else currentNetwork)
  else (nodes, currentNetwork)

/-- C4: the preset bootstrap is broken — `createPresetNode` calls
`generateNodeId()` without arguments, which throws before any node is
built, the throw is caught and the node skipped, so `getPresetNodes`
returns the EMPTY list; consequently `shouldInitializePresetNodes`
returns true for EVERY registry (even one already holding preset-derived
nodes), and `initializePresetNodes` replaces any registry with the empty
list — it neither populates the preset endpoints, nor marks a first
endpoint active, nor is re-invocation a no-op.  This contradicts the
repository's own tests (preset-nodes.test.ts), which expect a non-empty
preset list with the first node of each network active and
`shouldInitializePresetNodes([presetNodes[0]]) = false`. -/
theorem C4_preset_bootstrap_broken :
    (∀ now : JSString, getPresetNodes now = [])
    ∧ (∀ (nodes : List Node) (now : JSString),
        shouldInitializePresetNodes nodes now = true)
    ∧ (∀ (nodes : List Node) (net : NetworkType) (now : JSString),
        initializePresetNodes nodes net now = ([], net)) := by
  have hcreate : ∀ (url : JSString) (network : NetworkType) (index : Nat)
      (now : JSString),
      createPresetNode url network index now = Except.error
        (jstr "TypeError: Cannot read properties of undefined (reading 'toLowerCase')") := by
    intro url network index now
    rfl
  have hcollect : ∀ (urls : List JSString) (network : NetworkType) (now : JSString),
      collectPresetNodes urls network now = [] := by
    intro urls network now
    rw [collectPresetNodes, List.filterMap_eq_nil]
    intro p hp
    rw [hcreate]
    rfl
  have hget : ∀ now : JSString, getPresetNodes now = [] := by
    intro now
    rw [getPresetNodes, hcollect, hcollect]
    rfl
  have hshould : ∀ (nodes : List Node) (now : JSString),
      shouldInitializePresetNodes nodes now = true := by
    intro nodes now
    rw [shouldInitializePresetNodes]
    split
    · rfl
    · simp [hget]
  refine ⟨hget, hshould, ?_⟩
  intro nodes net now
  rw [initializePresetNodes, if_pos (hshould nodes now)]
  simp [hget]

end SymbolCosigner
